import Mathlib

/-!
# CrossLayout: a verification development

A shallow embedding of the layout algebra of CrossLayout
(`src/crosslayout/Composer.h`), of its point type
(`src/crosslayout/geometry/Point.h`) and of the node capability interface the
algebra is written against, followed by theorems about them.

Conventions.
* `float` coordinates are exact rationals (`ℚ`) in the embedding of the
  composer; the section on single-precision arithmetic redoes the path of
  `between` with every operation rounded to binary32, and the theorems say
  which of the two arithmetics they are about.
* A `NodeWrapper` is a nullable pointer: `none` is `nullptr`, `some i` points
  at node `i` of the scene.
* A member function that reads or writes nodes takes the scene and returns
  `Except Aborted`: a failed `assert` is `Except.error`, and the error carries
  the scene as it was when the assertion failed.
* Fixed-width integers are mathematical integers (`ℤ`) together with a
  `NumType` tag; `static_cast` is reduction into the range of the target.
-/

namespace CrossLayout

/-! ## Geometry value types -/

/-- Point of `Point.h`: `template<class T> class Point { T x; T y; }`. -/
structure Point (T : Type) where
  x : T
  y : T
deriving DecidableEq, Repr

namespace Point

variable {T : Type}

/-- Vector subtraction, `Point::operator-` (Point.h:139). -/
def sub [Sub T] (l r : Point T) : Point T :=
  ⟨l.x - r.x, l.y - r.y⟩

/-- Vector addition, `Point::operator+` (Point.h:144). -/
def add [Add T] (l r : Point T) : Point T :=
  ⟨l.x + r.x, l.y + r.y⟩

instance [Sub T] : Sub (Point T) := ⟨Point.sub⟩

instance [Add T] : Add (Point T) := ⟨Point.add⟩

/-- Structural inequality, `operator!=` (Point.h:165). -/
def ne [DecidableEq T] (l r : Point T) : Bool :=
  decide (l.x ≠ r.x) || decide (l.y ≠ r.y)

/-- Ordering, `operator<` (Point.h:171): x first, then y. -/
def lt [DecidableEq T] [LT T] [DecidableRel (fun a b : T => a < b)]
    (l r : Point T) : Bool :=
  decide (l.x < r.x) || (decide (l.x = r.x) && decide (l.y < r.y))

/-- Structural equality, `operator==` (Point.h:177). -/
def eq [DecidableEq T] (l r : Point T) : Bool :=
  decide (l.x = r.x) && decide (l.y = r.y)

end Point

/-- Modelled from the spec: `Size<T>` (its header is not under `src/`),
"`{width: T, height: T}`". -/
structure Size (T : Type) where
  width : T
  height : T
deriving DecidableEq, Repr

/-- Modelled from the spec: `Rect<T>` (its header is not under `src/`),
"`{point: Point<T>, size: Size<T>}`". -/
structure Rect (T : Type) where
  point : Point T
  size : Size T
deriving DecidableEq, Repr

namespace Rect

/-- Modelled from the spec: the four-scalar initialiser `Rect{x, y, w, h}`
that `Composer::In::between` uses (Composer.h:119). -/
def ofXYWH (x y w h : ℚ) : Rect ℚ :=
  ⟨⟨x, y⟩, ⟨w, h⟩⟩

/-- Modelled from the spec: the left edge coordinate `Rect::x()`. -/
def x (r : Rect ℚ) : ℚ := r.point.x

/-- Modelled from the spec: the bottom edge coordinate `Rect::y()`. -/
def y (r : Rect ℚ) : ℚ := r.point.y

/-- Modelled from the spec: the right edge coordinate `Rect::right()`. -/
def right (r : Rect ℚ) : ℚ := r.point.x + r.size.width

/-- Modelled from the spec: the top edge coordinate `Rect::top()`
(Y-up convention). -/
def top (r : Rect ℚ) : ℚ := r.point.y + r.size.height

/-- Modelled from the spec: `Rect::getPoint(fx, fy)`, "the point at fractional
position `(point.x + fx*size.width, point.y + fy*size.height)`". -/
def getPoint (r : Rect ℚ) (fx fy : ℚ) : Point ℚ :=
  ⟨r.point.x + fx * r.size.width, r.point.y + fy * r.size.height⟩

end Rect

/-! ## Node capability interface -/

/-- Ways a call can fail. -/
inductive Failure where
  /-- A failed `assert(_node)`: a capability was used on a null wrapper. -/
  | nullNode
deriving DecidableEq, Repr

/-- Host node, reduced to what the algebra can observe: its bounding box and
its parent pointer. -/
structure Node where
  box : Rect ℚ
  parent : Option Nat
deriving DecidableEq, Repr

/-- Capability calls, as recorded in the scene's call log. -/
inductive Call where
  | getBoundingBox (node : Nat)
  | getParent (node : Nat)
  | getPosition (node : Nat)
  | setPosition (node : Nat) (position : Point ℚ)
deriving DecidableEq, Repr

/-- Host-owned node tree together with the log of capability calls made on
it so far (most recent call first). -/
structure Scene where
  nodes : Nat → Node
  calls : List Call

/-- A failed call: what failed, and the scene as it was at the failure, that
is the nodes and the log of the calls made before it. -/
structure Aborted where
  failure : Failure
  scene : Scene

/-- Modelled from the spec: `NodeWrapper<T>` (NodeWrapper.h is not under
`src/`), "an opaque handle to exactly one host-owned node" that "carries a
validity flag". As in the one adapter under `src/`
(CocosNodeWrapper.h:30,94) it is a pointer that may be null. -/
abbrev NodeWrapper := Option Nat

namespace NodeWrapper

/-- The `isValid` capability (CocosNodeWrapper.h:88): `_node != nullptr`. -/
def isValid (w : NodeWrapper) : Bool := w.isSome

/-- The `getBoundingBox` capability (CocosNodeWrapper.h:46): asserts the
pointer, then returns the node's bounding box. -/
def getBoundingBox (w : NodeWrapper) (σ : Scene) : Except Aborted (Rect ℚ × Scene) :=
  match w with
  | none => .error ⟨.nullNode, σ⟩
  | some i => .ok ((σ.nodes i).box, { σ with calls := .getBoundingBox i :: σ.calls })

/-- Modelled from the spec: the `getParent` capability, "`getParent() → Node`";
the wrapper of the parent node, null when the node has no parent. -/
def getParent (w : NodeWrapper) (σ : Scene) : Except Aborted (NodeWrapper × Scene) :=
  match w with
  | none => .error ⟨.nullNode, σ⟩
  | some i => .ok ((σ.nodes i).parent, { σ with calls := .getParent i :: σ.calls })

/-- The `getPosition` capability (CocosNodeWrapper.h:83): the origin of the
bounding box. -/
def getPosition (w : NodeWrapper) (σ : Scene) : Except Aborted (Point ℚ × Scene) :=
  match w with
  | none => .error ⟨.nullNode, σ⟩
  | some i => .ok ((σ.nodes i).box.point, { σ with calls := .getPosition i :: σ.calls })

/-- Modelled from the spec: the `setPosition` capability as a pure "move to"
operation: the origin of the node's bounding box becomes `position`, its size
is kept, no other node changes. -/
def setPosition (w : NodeWrapper) (position : Point ℚ) (σ : Scene) : Except Aborted Scene :=
  match w with
  | none => .error ⟨.nullNode, σ⟩
  | some i =>
    .ok { nodes := fun j =>
            if j = i then { σ.nodes i with box := ⟨position, (σ.nodes i).box.size⟩ }
            else σ.nodes j
          calls := .setPosition i position :: σ.calls }

end NodeWrapper

/-! ## The composer (Composer.h) -/

/-- Builder returned by `Composer::center` (Composer.h:95). -/
structure In where
  whichNode : NodeWrapper
deriving DecidableEq, Repr

/-- Centering builder (Composer.h:132): the reference rectangle and the
subject. -/
structure Orientation where
  whereBox : Rect ℚ
  whichNode : NodeWrapper
deriving DecidableEq, Repr

/-- Builder returned by `Composer::leftEdge` / `rightEdge` (Composer.h:185). -/
structure MoveHorizontal where
  whichEdge : Point ℚ
  whichNode : NodeWrapper
deriving DecidableEq, Repr

/-- Builder returned by `Composer::topEdge` / `bottomEdge` (Composer.h:205). -/
structure MoveVertical where
  whichEdge : Point ℚ
  whichNode : NodeWrapper
deriving DecidableEq, Repr

/-- Builder returned by `MoveHorizontal::moveTo` (Composer.h:225). -/
structure WhereHorizontal where
  whichEdge : Point ℚ
  whichNode : NodeWrapper
deriving DecidableEq, Repr

/-- Builder returned by `MoveVertical::moveTo` (Composer.h:280). -/
structure WhereVertical where
  whichEdge : Point ℚ
  whichNode : NodeWrapper
deriving DecidableEq, Repr

/-- Builder returned by `Composer::move` (Composer.h:335). -/
structure Move where
  whichNode : NodeWrapper
deriving DecidableEq, Repr

namespace Composer

/-- Method `Composer::leftEdge` (Composer.h:59). -/
def leftEdge (node : NodeWrapper) : MoveHorizontal := ⟨⟨0, 0⟩, node⟩

/-- Method `Composer::rightEdge` (Composer.h:64). -/
def rightEdge (node : NodeWrapper) : MoveHorizontal := ⟨⟨1, 0⟩, node⟩

/-- Method `Composer::topEdge` (Composer.h:69). -/
def topEdge (node : NodeWrapper) : MoveVertical := ⟨⟨0, 1⟩, node⟩

/-- Method `Composer::bottomEdge` (Composer.h:74). -/
def bottomEdge (node : NodeWrapper) : MoveVertical := ⟨⟨0, 0⟩, node⟩

/-- Method `Composer::center` (Composer.h:79). -/
def center (node : NodeWrapper) : In := ⟨node⟩

/-- Method `Composer::move` (Composer.h:84). -/
def move (node : NodeWrapper) : Move := ⟨node⟩

/-- Method `Composer::moveBy` (Composer.h:89):
`node.setPosition(moveBy + node.getPosition())`. -/
def moveBy (node : NodeWrapper) (moveBy : Point ℚ) (σ : Scene) : Except Aborted Scene := do
  let (position, σ1) ← node.getPosition σ
  node.setPosition (moveBy + position) σ1

end Composer

namespace In

/-- Method `In::in` (Composer.h:99): the reference rectangle is the target's
bounding box. -/
def in_ (self : In) (node : NodeWrapper) (σ : Scene) : Except Aborted (Orientation × Scene) := do
  let (box, σ1) ← node.getBoundingBox σ
  pure (⟨box, self.whichNode⟩, σ1)

/-- Method `In::inParent` (Composer.h:104): the reference rectangle is the parent's
size, placed at the origin. -/
def inParent (self : In) (σ : Scene) : Except Aborted (Orientation × Scene) := do
  let (parent, σ1) ← self.whichNode.getParent σ
  let (box, σ2) ← parent.getBoundingBox σ1
  pure (⟨⟨⟨0, 0⟩, box.size⟩, self.whichNode⟩, σ2)

/-- The rectangle computed in the body of `In::between` (Composer.h:114-120)
from the two bounding boxes. -/
def betweenBox (nodeABox nodeBBox : Rect ℚ) : Rect ℚ :=
  let x := min nodeABox.right nodeBBox.right
  let y := min nodeABox.top nodeBBox.top
  let x1 := max nodeABox.x nodeBBox.x
  let y1 := max nodeABox.y nodeBBox.y
  Rect.ofXYWH x y (max (x1 - x) 0) (max (y1 - y) 0)

/-- Method `In::between` (Composer.h:109). -/
def between (self : In) (nodeA nodeB : NodeWrapper) (σ : Scene) :
    Except Aborted (Orientation × Scene) := do
  let (nodeABox, σ1) ← nodeA.getBoundingBox σ
  let (nodeBBox, σ2) ← nodeB.getBoundingBox σ1
  pure (⟨betweenBox nodeABox nodeBBox, self.whichNode⟩, σ2)

end In

namespace Orientation

/-- The displacement `toPoint - fromPoint` of `Orientation::horizontally`
(Composer.h:146-151), from the subject's bounding box. -/
def horizontallyDisplacement (whereBox box : Rect ℚ) (margin : ℚ) : Point ℚ :=
  let fromPoint := box.getPoint (1 / 2) 0
  let toPoint := whereBox.getPoint (1 / 2) 0
  let toPoint := { toPoint with x := toPoint.x + margin }
  let toPoint := { toPoint with y := fromPoint.y }
  toPoint - fromPoint

/-- The displacement `toPoint - fromPoint` of `Orientation::vertically`
(Composer.h:157-162), from the subject's bounding box. -/
def verticallyDisplacement (whereBox box : Rect ℚ) (margin : ℚ) : Point ℚ :=
  let fromPoint := box.getPoint 0 (1 / 2)
  let toPoint := whereBox.getPoint 0 (1 / 2)
  let toPoint := { toPoint with x := fromPoint.x }
  let toPoint := { toPoint with y := toPoint.y + margin }
  toPoint - fromPoint

/-- The displacement `toPoint - fromPoint` of `Orientation::center`
(Composer.h:178-181), from the subject's bounding box. -/
def centerDisplacement (whereBox box : Rect ℚ) : Point ℚ :=
  let fromPoint := box.getPoint (1 / 2) (1 / 2)
  let toPoint := whereBox.getPoint (1 / 2) (1 / 2)
  toPoint - fromPoint

/-- Method `Orientation::horizontally` (Composer.h:144). The builder is returned with
its subject reset to null ("Make invalid"). -/
def horizontally (self : Orientation) (margin : ℚ) (σ : Scene) :
    Except Aborted (Orientation × Scene) := do
  let (box, σ1) ← self.whichNode.getBoundingBox σ
  let σ2 ← Composer.moveBy self.whichNode (horizontallyDisplacement self.whereBox box margin) σ1
  pure ({ self with whichNode := none }, σ2)

/-- Method `Orientation::vertically` (Composer.h:155). The builder is returned with
its subject reset to null ("Make invalid"). -/
def vertically (self : Orientation) (margin : ℚ) (σ : Scene) :
    Except Aborted (Orientation × Scene) := do
  let (box, σ1) ← self.whichNode.getBoundingBox σ
  let σ2 ← Composer.moveBy self.whichNode (verticallyDisplacement self.whereBox box margin) σ1
  pure ({ self with whichNode := none }, σ2)

/-- Method `Orientation::center` (Composer.h:176). -/
def center (self : Orientation) (σ : Scene) : Except Aborted Scene := do
  let (box, σ1) ← self.whichNode.getBoundingBox σ
  Composer.moveBy self.whichNode (centerDisplacement self.whereBox box) σ1

/-- Destructor `Orientation::~Orientation` (Composer.h:136): the step that runs when the
builder is discarded. -/
def destroy (self : Orientation) (σ : Scene) : Except Aborted Scene :=
  if self.whichNode.isValid then self.center σ else pure σ

end Orientation

namespace MoveHorizontal

/-- Method `MoveHorizontal::moveTo` (Composer.h:189). -/
def moveTo (self : MoveHorizontal) : WhereHorizontal := ⟨self.whichEdge, self.whichNode⟩

end MoveHorizontal

namespace MoveVertical

/-- Method `MoveVertical::moveTo` (Composer.h:209). -/
def moveTo (self : MoveVertical) : WhereVertical := ⟨self.whichEdge, self.whichNode⟩

end MoveVertical

namespace WhereHorizontal

/-- The displacement `toPoint - fromPoint` of `WhereHorizontal::leftEdge`
(Composer.h:231-236), from the two bounding boxes. -/
def leftEdgeDisplacement (whichEdge : Point ℚ) (box nodeBox : Rect ℚ) (margin : ℚ) : Point ℚ :=
  let fromPoint := box.getPoint whichEdge.x whichEdge.y
  let toPoint := nodeBox.getPoint 0 0
  let toPoint := { toPoint with x := toPoint.x + (if whichEdge.x = 1 then -margin else margin) }
  let toPoint := { toPoint with y := fromPoint.y }
  toPoint - fromPoint

/-- The displacement `toPoint - fromPoint` of `WhereHorizontal::rightEdge`
(Composer.h:241-246), from the two bounding boxes. -/
def rightEdgeDisplacement (whichEdge : Point ℚ) (box nodeBox : Rect ℚ) (margin : ℚ) : Point ℚ :=
  let fromPoint := box.getPoint whichEdge.x whichEdge.y
  let toPoint := nodeBox.getPoint 1 0
  let toPoint := { toPoint with x := toPoint.x + (if whichEdge.x = 1 then -margin else margin) }
  let toPoint := { toPoint with y := fromPoint.y }
  toPoint - fromPoint

/-- The displacement `toPoint - fromPoint` of `WhereHorizontal::parentLeftEdge`
(Composer.h:251-255), from the subject's bounding box. -/
def parentLeftEdgeDisplacement (whichEdge : Point ℚ) (box : Rect ℚ) (margin : ℚ) : Point ℚ :=
  let fromPoint := box.getPoint whichEdge.x whichEdge.y
  let toPoint : Point ℚ := ⟨0, fromPoint.y⟩
  let toPoint := { toPoint with x := toPoint.x + (if whichEdge.x = 1 then -margin else margin) }
  toPoint - fromPoint

/-- The displacement `toPoint - fromPoint` of `WhereHorizontal::parentRightEdge`
(Composer.h:260-266), from the subject's and the parent's bounding boxes. -/
def parentRightEdgeDisplacement (whichEdge : Point ℚ) (box parentBox : Rect ℚ) (margin : ℚ) :
    Point ℚ :=
  let fromPoint := box.getPoint whichEdge.x whichEdge.y
  let toPoint : Point ℚ := ⟨parentBox.size.width, fromPoint.y⟩
  let toPoint := { toPoint with x := toPoint.x + (if whichEdge.x = 1 then -margin else margin) }
  toPoint - fromPoint

/-- Method `WhereHorizontal::leftEdge` (Composer.h:229). -/
def leftEdge (self : WhereHorizontal) (node : NodeWrapper) (margin : ℚ) (σ : Scene) :
    Except Aborted Scene := do
  let (box, σ1) ← self.whichNode.getBoundingBox σ
  let (nodeBox, σ2) ← node.getBoundingBox σ1
  Composer.moveBy self.whichNode (leftEdgeDisplacement self.whichEdge box nodeBox margin) σ2

/-- Method `WhereHorizontal::rightEdge` (Composer.h:239). -/
def rightEdge (self : WhereHorizontal) (node : NodeWrapper) (margin : ℚ) (σ : Scene) :
    Except Aborted Scene := do
  let (box, σ1) ← self.whichNode.getBoundingBox σ
  let (nodeBox, σ2) ← node.getBoundingBox σ1
  Composer.moveBy self.whichNode (rightEdgeDisplacement self.whichEdge box nodeBox margin) σ2

/-- Method `WhereHorizontal::parentLeftEdge` (Composer.h:249). -/
def parentLeftEdge (self : WhereHorizontal) (margin : ℚ) (σ : Scene) : Except Aborted Scene := do
  let (box, σ1) ← self.whichNode.getBoundingBox σ
  Composer.moveBy self.whichNode (parentLeftEdgeDisplacement self.whichEdge box margin) σ1

/-- Method `WhereHorizontal::parentRightEdge` (Composer.h:258). -/
def parentRightEdge (self : WhereHorizontal) (margin : ℚ) (σ : Scene) : Except Aborted Scene := do
  let (box, σ1) ← self.whichNode.getBoundingBox σ
  let (parent, σ2) ← self.whichNode.getParent σ1
  let (parentBox, σ3) ← parent.getBoundingBox σ2
  Composer.moveBy self.whichNode
    (parentRightEdgeDisplacement self.whichEdge box parentBox margin) σ3

end WhereHorizontal

namespace WhereVertical

/-- The displacement `toPoint - fromPoint` of `WhereVertical::topEdge`
(Composer.h:286-291), from the two bounding boxes. -/
def topEdgeDisplacement (whichEdge : Point ℚ) (box nodeBox : Rect ℚ) (margin : ℚ) : Point ℚ :=
  let fromPoint := box.getPoint whichEdge.x whichEdge.y
  let toPoint := nodeBox.getPoint 0 1
  let toPoint := { toPoint with x := fromPoint.x }
  let toPoint := { toPoint with y := toPoint.y + (if whichEdge.y = 1 then -margin else margin) }
  toPoint - fromPoint

/-- The displacement `toPoint - fromPoint` of `WhereVertical::bottomEdge`
(Composer.h:296-301), from the two bounding boxes. -/
def bottomEdgeDisplacement (whichEdge : Point ℚ) (box nodeBox : Rect ℚ) (margin : ℚ) : Point ℚ :=
  let fromPoint := box.getPoint whichEdge.x whichEdge.y
  let toPoint := nodeBox.getPoint 0 0
  let toPoint := { toPoint with x := fromPoint.x }
  let toPoint := { toPoint with y := toPoint.y + (if whichEdge.y = 1 then -margin else margin) }
  toPoint - fromPoint

/-- The displacement `toPoint - fromPoint` of `WhereVertical::parentTopEdge`
(Composer.h:306-312), from the subject's and the parent's bounding boxes. -/
def parentTopEdgeDisplacement (whichEdge : Point ℚ) (box parentBox : Rect ℚ) (margin : ℚ) :
    Point ℚ :=
  let fromPoint := box.getPoint whichEdge.x whichEdge.y
  let toPoint : Point ℚ := ⟨fromPoint.x, parentBox.size.height⟩
  let toPoint := { toPoint with y := toPoint.y + (if whichEdge.y = 1 then -margin else margin) }
  toPoint - fromPoint

/-- The displacement `toPoint - fromPoint` of `WhereVertical::parentBottomEdge`
(Composer.h:317-321), from the subject's bounding box. -/
def parentBottomEdgeDisplacement (whichEdge : Point ℚ) (box : Rect ℚ) (margin : ℚ) : Point ℚ :=
  let fromPoint := box.getPoint whichEdge.x whichEdge.y
  let toPoint : Point ℚ := ⟨fromPoint.x, 0⟩
  let toPoint := { toPoint with y := toPoint.y + (if whichEdge.y = 1 then -margin else margin) }
  toPoint - fromPoint

/-- Method `WhereVertical::topEdge` (Composer.h:284). -/
def topEdge (self : WhereVertical) (node : NodeWrapper) (margin : ℚ) (σ : Scene) :
    Except Aborted Scene := do
  let (box, σ1) ← self.whichNode.getBoundingBox σ
  let (nodeBox, σ2) ← node.getBoundingBox σ1
  Composer.moveBy self.whichNode (topEdgeDisplacement self.whichEdge box nodeBox margin) σ2

/-- Method `WhereVertical::bottomEdge` (Composer.h:294). -/
def bottomEdge (self : WhereVertical) (node : NodeWrapper) (margin : ℚ) (σ : Scene) :
    Except Aborted Scene := do
  let (box, σ1) ← self.whichNode.getBoundingBox σ
  let (nodeBox, σ2) ← node.getBoundingBox σ1
  Composer.moveBy self.whichNode (bottomEdgeDisplacement self.whichEdge box nodeBox margin) σ2

/-- Method `WhereVertical::parentTopEdge` (Composer.h:304). -/
def parentTopEdge (self : WhereVertical) (margin : ℚ) (σ : Scene) : Except Aborted Scene := do
  let (box, σ1) ← self.whichNode.getBoundingBox σ
  let (parent, σ2) ← self.whichNode.getParent σ1
  let (parentBox, σ3) ← parent.getBoundingBox σ2
  Composer.moveBy self.whichNode
    (parentTopEdgeDisplacement self.whichEdge box parentBox margin) σ3

/-- Method `WhereVertical::parentBottomEdge` (Composer.h:315). -/
def parentBottomEdge (self : WhereVertical) (margin : ℚ) (σ : Scene) : Except Aborted Scene := do
  let (box, σ1) ← self.whichNode.getBoundingBox σ
  Composer.moveBy self.whichNode (parentBottomEdgeDisplacement self.whichEdge box margin) σ1

end WhereVertical

namespace Move

/-- Method `Move::below` (Composer.h:339). -/
def below (self : Move) (node : NodeWrapper) (margin : ℚ) (σ : Scene) : Except Aborted Scene :=
  (Composer.topEdge self.whichNode).moveTo.bottomEdge node margin σ

/-- Method `Move::above` (Composer.h:344). -/
def above (self : Move) (node : NodeWrapper) (margin : ℚ) (σ : Scene) : Except Aborted Scene :=
  (Composer.bottomEdge self.whichNode).moveTo.topEdge node margin σ

/-- Method `Move::toLeftOf` (Composer.h:349). -/
def toLeftOf (self : Move) (node : NodeWrapper) (margin : ℚ) (σ : Scene) : Except Aborted Scene :=
  (Composer.rightEdge self.whichNode).moveTo.leftEdge node margin σ

/-- Method `Move::toRightOf` (Composer.h:354). -/
def toRightOf (self : Move) (node : NodeWrapper) (margin : ℚ) (σ : Scene) : Except Aborted Scene :=
  (Composer.leftEdge self.whichNode).moveTo.rightEdge node margin σ

end Move

/-! ## Full expressions

A centering builder is a temporary: it is discarded, and its destructor runs,
at the end of the expression statement that created it. -/

namespace Statement

/-- The statement `composer.center(subject).in(target);`. -/
def centerIn (subject target : NodeWrapper) (σ : Scene) : Except Aborted Scene := do
  let (builder, σ1) ← (Composer.center subject).in_ target σ
  builder.destroy σ1

/-- The statement `composer.center(subject).in(target).horizontally(margin);`. -/
def centerInHorizontally (subject target : NodeWrapper) (margin : ℚ) (σ : Scene) :
    Except Aborted Scene := do
  let (builder, σ1) ← (Composer.center subject).in_ target σ
  let (builder, σ2) ← builder.horizontally margin σ1
  builder.destroy σ2

/-- The statement `composer.center(subject).in(target).vertically(margin);`. -/
def centerInVertically (subject target : NodeWrapper) (margin : ℚ) (σ : Scene) :
    Except Aborted Scene := do
  let (builder, σ1) ← (Composer.center subject).in_ target σ
  let (builder, σ2) ← builder.vertically margin σ1
  builder.destroy σ2

/-- The statement `composer.center(subject).inParent();`. -/
def centerInParent (subject : NodeWrapper) (σ : Scene) : Except Aborted Scene := do
  let (builder, σ1) ← (Composer.center subject).inParent σ
  builder.destroy σ1

/-- The statement `composer.center(subject).inParent().horizontally(margin);`. -/
def centerInParentHorizontally (subject : NodeWrapper) (margin : ℚ) (σ : Scene) :
    Except Aborted Scene := do
  let (builder, σ1) ← (Composer.center subject).inParent σ
  let (builder, σ2) ← builder.horizontally margin σ1
  builder.destroy σ2

/-- The statement `composer.center(subject).between(nodeA, nodeB);`. -/
def centerBetween (subject nodeA nodeB : NodeWrapper) (σ : Scene) : Except Aborted Scene := do
  let (builder, σ1) ← (Composer.center subject).between nodeA nodeB σ
  builder.destroy σ1

/-- The statement
`composer.center(subject).between(nodeA, nodeB).horizontally(margin);`. -/
def centerBetweenHorizontally (subject nodeA nodeB : NodeWrapper) (margin : ℚ) (σ : Scene) :
    Except Aborted Scene := do
  let (builder, σ1) ← (Composer.center subject).between nodeA nodeB σ
  let (builder, σ2) ← builder.horizontally margin σ1
  builder.destroy σ2

/-- The statement `composer.center(subject).inParent().vertically(margin);`. -/
def centerInParentVertically (subject : NodeWrapper) (margin : ℚ) (σ : Scene) :
    Except Aborted Scene := do
  let (builder, σ1) ← (Composer.center subject).inParent σ
  let (builder, σ2) ← builder.vertically margin σ1
  builder.destroy σ2

/-- The statement
`composer.center(subject).between(nodeA, nodeB).vertically(margin);`. -/
def centerBetweenVertically (subject nodeA nodeB : NodeWrapper) (margin : ℚ) (σ : Scene) :
    Except Aborted Scene := do
  let (builder, σ1) ← (Composer.center subject).between nodeA nodeB σ
  let (builder, σ2) ← builder.vertically margin σ1
  builder.destroy σ2

end Statement

/-! ## Observations on a scene -/

namespace Scene

/-- Bounding box of node `i`. -/
def box (σ : Scene) (i : Nat) : Rect ℚ := (σ.nodes i).box

/-- Scene with the given bounding boxes, no parents and an empty call log. -/
def ofBoxes (boxes : Nat → Rect ℚ) : Scene :=
  { nodes := fun i => ⟨boxes i, none⟩, calls := [] }

/-- The `setPosition` calls of the call log, most recent first, each with the
node it was made on and the position written. -/
def setPositionCalls (σ : Scene) : List (Nat × Point ℚ) :=
  σ.calls.filterMap fun c =>
    match c with
    | .setPosition node position => some (node, position)
    | _ => none

/-- Outcome of a chain that resolves once: started in `σ` on subject `s` with
displacement `d`, it succeeds, adds to the log exactly one `setPosition` call,
made on `s` and writing `d` plus the position `s` had, and leaves every other
node as it was. -/
def ResolvesOnce (σ : Scene) (s : Nat) (d : Point ℚ) (result : Except Aborted Scene) : Prop :=
  ∃ σ', result = .ok σ' ∧
    σ'.setPositionCalls = (s, d + (σ.box s).point) :: σ.setPositionCalls ∧
    ∀ j, j ≠ s → σ'.nodes j = σ.nodes j

end Scene

namespace Rect

/-- The interiors of two rectangles share a point: on each axis the larger of
the two lower edges is strictly below the smaller of the two upper edges. -/
def InteriorsOverlap (a b : Rect ℚ) : Prop :=
  max a.x b.x < min a.right b.right ∧ max a.y b.y < min a.top b.top

instance (a b : Rect ℚ) : Decidable (a.InteriorsOverlap b) := by
  unfold InteriorsOverlap
  exact inferInstance

end Rect

/-! ## Checked conversion between point representations (Point.h:61-137) -/

/-- Coordinate representations: `bool` and the fixed-width integer types,
given by signedness and number of bits. -/
inductive NumType where
  | bool
  | int (signed : Bool) (bits : Nat)
deriving DecidableEq, Repr

namespace NumType

/-- The trait `std::is_unsigned<T>::value`. -/
def isUnsigned : NumType → Bool
  | bool => true
  | int signed _ => !signed

/-- The trait `std::is_signed<T>::value`. -/
def isSigned : NumType → Bool
  | bool => false
  | int signed _ => signed

/-- The operator `sizeof(T)`, in bytes. -/
def sizeof : NumType → Nat
  | bool => 1
  | int _ bits => bits / 8

/-- The constant `std::numeric_limits<T>::max()`. -/
def max : NumType → ℤ
  | bool => 1
  | int true bits => 2 ^ (bits - 1) - 1
  | int false bits => 2 ^ bits - 1

/-- The constant `std::numeric_limits<T>::min()`. -/
def min : NumType → ℤ
  | bool => 0
  | int true bits => -(2 ^ (bits - 1))
  | int false _ => 0

/-- The values that `T` can represent. -/
def InRange (T : NumType) (v : ℤ) : Prop := T.min ≤ v ∧ v ≤ T.max

instance (T : NumType) (v : ℤ) : Decidable (T.InRange v) := by
  unfold InRange
  exact inferInstance

/-- The conversion `static_cast<T>(v)` of an integer value: to `bool`,
`v != 0`; to an unsigned type, `v` modulo `2^bits`; to a signed type, the value
congruent to `v` modulo `2^bits` in the two's complement range. -/
def staticCast (T : NumType) (v : ℤ) : ℤ :=
  match T with
  | bool => if v = 0 then 0 else 1
  | int false bits => v % 2 ^ bits
  | int true bits => (v + 2 ^ (bits - 1)) % 2 ^ bits - 2 ^ (bits - 1)

/-- The type `Bigger` of the converting constructors (Point.h:71,100,127):
`std::conditional<sizeof(T) >= sizeof(F), T, F>::type`. -/
def bigger (T F : NumType) : NumType :=
  if T.sizeof ≥ F.sizeof then T else F

/-- The fixed-width integer types of 8, 16, 32 and 64 bits. -/
def IsFixedWidthInt : NumType → Prop
  | bool => False
  | int _ bits => bits = 8 ∨ bits = 16 ∨ bits = 32 ∨ bits = 64

instance (T : NumType) : Decidable T.IsFixedWidthInt := by
  cases T <;> unfold IsFixedWidthInt <;> exact inferInstance

end NumType

/-- The exception of the converting constructors:
`std::runtime_error("Can't convert. Data will be loosed or incorrect")`. -/
inductive ConversionError where
  | cantConvert
deriving DecidableEq, Repr

namespace Point

/-- Converting constructor of `Point<T>` from `Point<F>` for an unsigned `F`
and a `T` of the other signedness (Point.h:62-88). -/
def fromUnsigned (T F : NumType) (point : Point ℤ) : Except ConversionError (Point ℤ) :=
  let x := T.staticCast point.x
  let y := T.staticCast point.y
  let Bigger := NumType.bigger T F
  if point.x > F.staticCast T.max then .error .cantConvert
  else if point.y > F.staticCast T.max then .error .cantConvert
  else if Bigger.staticCast x ≠ Bigger.staticCast point.x then .error .cantConvert
  else if Bigger.staticCast y ≠ Bigger.staticCast point.y then .error .cantConvert
  else .ok ⟨x, y⟩

/-- Converting constructor of `Point<T>` from `Point<F>` for a signed `F` and a
`T` of the other signedness (Point.h:91-117). -/
def fromSigned (T F : NumType) (point : Point ℤ) : Except ConversionError (Point ℤ) :=
  let x := T.staticCast point.x
  let y := T.staticCast point.y
  let Bigger := NumType.bigger T F
  if point.x < 0 then .error .cantConvert
  else if point.y < 0 then .error .cantConvert
  else if Bigger.staticCast x ≠ Bigger.staticCast point.x then .error .cantConvert
  else if Bigger.staticCast y ≠ Bigger.staticCast point.y then .error .cantConvert
  else .ok ⟨x, y⟩

/-- Converting constructor of `Point<T>` from `Point<F>` for `F` and `T` of the
same signedness (Point.h:120-137). -/
def fromSameSign (T F : NumType) (point : Point ℤ) : Except ConversionError (Point ℤ) :=
  let x := T.staticCast point.x
  let y := T.staticCast point.y
  let Bigger := NumType.bigger T F
  if Bigger.staticCast x ≠ Bigger.staticCast point.x then .error .cantConvert
  else if Bigger.staticCast y ≠ Bigger.staticCast point.y then .error .cantConvert
  else .ok ⟨x, y⟩

/-- Unchecked member-wise constructor `Point(const From& from)`
(Point.h:28-33): `x(from.x), y(from.y)`. -/
def fromAny (T : NumType) (point : Point ℤ) : Except ConversionError (Point ℤ) :=
  .ok ⟨T.staticCast point.x, T.staticCast point.y⟩

/-- The expression `Point<T>(point)` for a `Point<F> point`: the copy
constructor (Point.h:55) when the types are the same, otherwise the converting
constructor whose `enable_if` condition holds (Point.h:63-66, 92-95, 121-122). -/
def convert (F T : NumType) (point : Point ℤ) : Except ConversionError (Point ℤ) :=
  if F = T then .ok point
  else if T.isUnsigned ≠ F.isUnsigned ∧ F.isUnsigned then fromUnsigned T F point
  else if T.isUnsigned ≠ F.isUnsigned ∧ F.isSigned then fromSigned T F point
  else if T.isUnsigned = F.isUnsigned then fromSameSign T F point
  else fromAny T point

end Point

/-! ## Single-precision arithmetic

The composer computes in `float` (Composer.h:41-42). The definitions above
take coordinates as exact rationals. The definitions of this section redo the
path `between`, `horizontally`, `moveBy` in IEEE 754 binary32 arithmetic: a
finite `float` is the rational it denotes, and every operation returns the
exact result rounded to the nearest binary32 value, ties to even. Results
beyond the largest finite value are not modelled. -/

namespace Float32

/-- The product `v * 2 ^ k`. -/
def scaleb (v : ℚ) (k : ℤ) : ℚ :=
  if 0 ≤ k then v * (2 ^ k.toNat : ℕ) else v / (2 ^ (-k).toNat : ℕ)

/-- The integer nearest to `x`, the even one of the two when `x` is half way
between two integers. -/
def roundEven (x : ℚ) : ℤ :=
  let f := ⌊x⌋
  let r := x - f
  if r < 1 / 2 then f
  else if 1 / 2 < r then f + 1
  else if f % 2 = 0 then f else f + 1

/-- Number of halvings that take `n` below 2, at most `fuel` of them. -/
def halvings : Nat → Nat → Nat
  | 0, _ => 0
  | fuel + 1, n => if n < 2 then 0 else halvings fuel (n / 2) + 1

/-- The integer part of the binary logarithm of a positive `n`. -/
def log2 (n : Nat) : Nat := halvings n n

/-- The binary exponent of a non-zero `v`: the integer part of the binary
logarithm of its absolute value. -/
def exponent (v : ℚ) : ℤ :=
  let e : ℤ := (log2 v.num.natAbs : ℤ) - (log2 v.den : ℤ)
  if 1 ≤ scaleb |v| (-e) then e else e - 1

/-- The binary32 value nearest to `v`, ties to even: `v` is rounded to a
multiple of `2 ^ q`, where `q` is the exponent of `v` minus 23 (a significand
of 24 bits) and at least -149 (the subnormal range). -/
def round (v : ℚ) : ℚ :=
  let q := max (exponent v - 23) (-149)
  scaleb (roundEven (scaleb v (-q))) q

/-- The `float` sum `a + b`. -/
def add (a b : ℚ) : ℚ := round (a + b)

/-- The `float` difference `a - b`. -/
def sub (a b : ℚ) : ℚ := round (a - b)

/-- The `float` product `a * b`. -/
def mul (a b : ℚ) : ℚ := round (a * b)

end Float32

/-- Vector subtraction `Point<float>::operator-` (Point.h:139) in single
precision. -/
def Point.sub32 (l r : Point ℚ) : Point ℚ :=
  ⟨Float32.sub l.x r.x, Float32.sub l.y r.y⟩

/-- Vector addition `Point<float>::operator+` (Point.h:144) in single
precision. -/
def Point.add32 (l r : Point ℚ) : Point ℚ :=
  ⟨Float32.add l.x r.x, Float32.add l.y r.y⟩

/-- Modelled from the spec: the right edge coordinate `Rect::right()`, in
single precision. -/
def Rect.right32 (r : Rect ℚ) : ℚ := Float32.add r.point.x r.size.width

/-- Modelled from the spec: the top edge coordinate `Rect::top()`, in single
precision. -/
def Rect.top32 (r : Rect ℚ) : ℚ := Float32.add r.point.y r.size.height

/-- Modelled from the spec: `Rect::getPoint(fx, fy)`,
`(point.x + fx*size.width, point.y + fy*size.height)`, in single precision. -/
def Rect.getPoint32 (r : Rect ℚ) (fx fy : ℚ) : Point ℚ :=
  ⟨Float32.add r.point.x (Float32.mul fx r.size.width),
   Float32.add r.point.y (Float32.mul fy r.size.height)⟩

/-- The rectangle computed in the body of `In::between` (Composer.h:114-120),
in single precision. -/
def In.betweenBox32 (nodeABox nodeBBox : Rect ℚ) : Rect ℚ :=
  let x := min nodeABox.right32 nodeBBox.right32
  let y := min nodeABox.top32 nodeBBox.top32
  let x1 := max nodeABox.x nodeBBox.x
  let y1 := max nodeABox.y nodeBBox.y
  Rect.ofXYWH x y (max (Float32.sub x1 x) 0) (max (Float32.sub y1 y) 0)

/-- The displacement `toPoint - fromPoint` of `Orientation::horizontally`
(Composer.h:146-151), in single precision. -/
def Orientation.horizontallyDisplacement32 (whereBox box : Rect ℚ) (margin : ℚ) : Point ℚ :=
  let fromPoint := box.getPoint32 (1 / 2) 0
  let toPoint := whereBox.getPoint32 (1 / 2) 0
  let toPoint := { toPoint with x := Float32.add toPoint.x margin }
  let toPoint := { toPoint with y := fromPoint.y }
  toPoint.sub32 fromPoint

/-- The position that `Composer::moveBy` (Composer.h:91) writes,
`moveBy + node.getPosition()`, in single precision. -/
def Composer.moveBy32 (position moveBy : Point ℚ) : Point ℚ :=
  moveBy.add32 position

/-- Bounding box of the subject after the statement
`composer.center(subject).between(nodeA, nodeB).horizontally(margin);`, in
single precision, from the bounding boxes of the three nodes as the statement
reads them; `setPosition` moves the origin and keeps the size. -/
def Statement.centerBetweenHorizontally32 (box nodeABox nodeBBox : Rect ℚ) (margin : ℚ) :
    Rect ℚ :=
  ⟨Composer.moveBy32 box.point
      (Orientation.horizontallyDisplacement32 (In.betweenBox32 nodeABox nodeBBox) box margin),
    box.size⟩

/-! ## Worked example of the specification -/

/-- Scene of the worked example: node 0 is the subject box `{0,0,10,10}`, every
other node is the target box `{100,0,20,20}`; no parents, empty call log. -/
def exampleScene : Scene :=
  Scene.ofBoxes fun i => if i = 0 then ⟨⟨0, 0⟩, ⟨10, 10⟩⟩ else ⟨⟨100, 0⟩, ⟨20, 20⟩⟩

/-- Scene with a parent: node 0 is the subject box `{0,0,10,10}` and its parent
is node 1; every other node is the box `{100,50,200,100}` and has no parent;
empty call log. -/
def exampleParentScene : Scene :=
  { nodes := fun i =>
      if i = 0 then ⟨⟨⟨0, 0⟩, ⟨10, 10⟩⟩, some 1⟩ else ⟨⟨⟨100, 50⟩, ⟨200, 100⟩⟩, none⟩
    calls := [] }

end CrossLayout

namespace CrossLayout

/-! ## Theorems: the layout algebra -/

@[simp] theorem Point.add_x (a b : Point ℚ) : (a + b).x = a.x + b.x := rfl

@[simp] theorem Point.add_y (a b : Point ℚ) : (a + b).y = a.y + b.y := rfl

@[simp] theorem Point.sub_x (a b : Point ℚ) : (a - b).x = a.x - b.x := rfl

@[simp] theorem Point.sub_y (a b : Point ℚ) : (a - b).y = a.y - b.y := rfl

/-- C1. Horizontal edge alignment: with valid subject `s` and target `t`, each
of the four chains `<e>Edge(s).moveTo().<f>Edge(t, m)` succeeds and leaves the
subject's edge `e` at the x of the target's edge `f` (as read by the call) plus
`m` for the left edge, minus `m` for the right edge; the subject's bottom y is
unchanged, and a target other than the subject keeps its box. -/
theorem horizontal_edge_alignment (σ : Scene) (s t : Nat) (m : ℚ) :
    (∃ σ', (Composer.leftEdge (some s)).moveTo.leftEdge (some t) m σ = .ok σ' ∧
      (σ'.box s).x = (σ.box t).x + m ∧ (σ'.box s).y = (σ.box s).y ∧
      (t ≠ s → σ'.box t = σ.box t)) ∧
    (∃ σ', (Composer.leftEdge (some s)).moveTo.rightEdge (some t) m σ = .ok σ' ∧
      (σ'.box s).x = (σ.box t).right + m ∧ (σ'.box s).y = (σ.box s).y ∧
      (t ≠ s → σ'.box t = σ.box t)) ∧
    (∃ σ', (Composer.rightEdge (some s)).moveTo.leftEdge (some t) m σ = .ok σ' ∧
      (σ'.box s).right = (σ.box t).x - m ∧ (σ'.box s).y = (σ.box s).y ∧
      (t ≠ s → σ'.box t = σ.box t)) ∧
    (∃ σ', (Composer.rightEdge (some s)).moveTo.rightEdge (some t) m σ = .ok σ' ∧
      (σ'.box s).right = (σ.box t).right - m ∧ (σ'.box s).y = (σ.box s).y ∧
      (t ≠ s → σ'.box t = σ.box t)) := by
  refine ⟨⟨_, rfl, ?_, ?_, ?_⟩, ⟨_, rfl, ?_, ?_, ?_⟩, ⟨_, rfl, ?_, ?_, ?_⟩, ⟨_, rfl, ?_, ?_, ?_⟩⟩
  all_goals
    first
    | (intro h; simp [Scene.box, h])
    | (simp [Scene.box, Rect.x, Rect.y, Rect.right, WhereHorizontal.leftEdgeDisplacement,
        WhereHorizontal.rightEdgeDisplacement, Composer.leftEdge, Composer.rightEdge,
        MoveHorizontal.moveTo, Rect.getPoint] <;> ring)

/-- C1, worked example: with subject `{0,0,10,10}` and target `{100,0,20,20}`,
`leftEdge(s).moveTo().rightEdge(t, 5)` leaves the subject's left edge at
`x = 125` and its bottom at `y = 0`, and the target where it was. -/
theorem horizontal_edge_alignment_witness :
    ∃ σ', (Composer.leftEdge (some 0)).moveTo.rightEdge (some 1) 5 exampleScene = .ok σ' ∧
      (σ'.box 0).x = 125 ∧ (σ'.box 0).y = 0 ∧ σ'.box 1 = ⟨⟨100, 0⟩, ⟨20, 20⟩⟩ := by
  obtain ⟨σ', h, hx, hy, ht⟩ := (horizontal_edge_alignment exampleScene 0 1 5).2.1
  refine ⟨σ', h, ?_, ?_, ?_⟩
  · rw [hx]
    norm_num [exampleScene, Scene.ofBoxes, Scene.box, Rect.right]
  · rw [hy]
    simp [exampleScene, Scene.ofBoxes, Scene.box, Rect.y]
  · rw [ht (by decide)]
    simp [exampleScene, Scene.ofBoxes, Scene.box]

/-- C2. Implicit full centering on discard: with valid subject `s` and target
`t`, the statement `center(s).in(t);` succeeds and leaves the centre of the
subject's bounding box, on both axes, at the centre the target's bounding box
had when `in(t)` was called. -/
theorem implicit_full_centering (σ : Scene) (s t : Nat) :
    ∃ σ', Statement.centerIn (some s) (some t) σ = .ok σ' ∧
      (σ'.box s).getPoint (1 / 2) (1 / 2) = (σ.box t).getPoint (1 / 2) (1 / 2) := by
  refine ⟨_, rfl, ?_⟩
  simp [Scene.box, Rect.getPoint, Orientation.centerDisplacement, Composer.center]
  constructor <;> ring

/-- C3. No double application after an explicit axis call: the statement
`center(s).in(t).horizontally(m);` succeeds, makes exactly the four capability
calls of `in` and `horizontally` (one `setPosition`, none from the discard
step), leaves the x of the subject's centre at the x of the reference centre
plus `m`, and keeps the subject's y; symmetrically for `vertically(m)`. -/
theorem no_double_application (σ : Scene) (s t : Nat) (m : ℚ) :
    (∃ σ' p, Statement.centerInHorizontally (some s) (some t) m σ = .ok σ' ∧
      σ'.calls = .setPosition s p :: .getPosition s :: .getBoundingBox s ::
        .getBoundingBox t :: σ.calls ∧
      ((σ'.box s).getPoint (1 / 2) (1 / 2)).x = ((σ.box t).getPoint (1 / 2) (1 / 2)).x + m ∧
      (σ'.box s).point.y = (σ.box s).point.y) ∧
    (∃ σ' p, Statement.centerInVertically (some s) (some t) m σ = .ok σ' ∧
      σ'.calls = .setPosition s p :: .getPosition s :: .getBoundingBox s ::
        .getBoundingBox t :: σ.calls ∧
      ((σ'.box s).getPoint (1 / 2) (1 / 2)).y = ((σ.box t).getPoint (1 / 2) (1 / 2)).y + m ∧
      (σ'.box s).point.x = (σ.box s).point.x) := by
  refine ⟨⟨_, _, rfl, rfl, ?_, ?_⟩, ⟨_, _, rfl, rfl, ?_, ?_⟩⟩
  all_goals
    simp [Scene.box, Rect.getPoint, Orientation.horizontallyDisplacement,
      Orientation.verticallyDisplacement, Composer.center] <;> ring

theorem point_eq_iff (p q : Point ℚ) : p = q ↔ p.x = q.x ∧ p.y = q.y := by
  cases p
  cases q
  simp

theorem rect_eq_iff (r s : Rect ℚ) : r = s ↔ r.point = s.point ∧ r.size = s.size := by
  cases r
  cases s
  simp

theorem node_eq_iff (n k : Node) : n = k ↔ n.box = k.box ∧ n.parent = k.parent := by
  cases n
  cases k
  simp

/-- C4. Edge alignment never perturbs the cross axis: for every selected
subject edge, boxes and margin, the displacement that the four
`WhereHorizontal` alignments pass to `moveBy` has y-component 0 and the
displacement that the four `WhereVertical` alignments pass has x-component 0. -/
theorem edge_alignment_cross_axis (whichEdge : Point ℚ) (box nodeBox parentBox : Rect ℚ)
    (margin : ℚ) :
    (WhereHorizontal.leftEdgeDisplacement whichEdge box nodeBox margin).y = 0 ∧
    (WhereHorizontal.rightEdgeDisplacement whichEdge box nodeBox margin).y = 0 ∧
    (WhereHorizontal.parentLeftEdgeDisplacement whichEdge box margin).y = 0 ∧
    (WhereHorizontal.parentRightEdgeDisplacement whichEdge box parentBox margin).y = 0 ∧
    (WhereVertical.topEdgeDisplacement whichEdge box nodeBox margin).x = 0 ∧
    (WhereVertical.bottomEdgeDisplacement whichEdge box nodeBox margin).x = 0 ∧
    (WhereVertical.parentTopEdgeDisplacement whichEdge box parentBox margin).x = 0 ∧
    (WhereVertical.parentBottomEdgeDisplacement whichEdge box margin).x = 0 := by
  simp [WhereHorizontal.leftEdgeDisplacement, WhereHorizontal.rightEdgeDisplacement,
    WhereHorizontal.parentLeftEdgeDisplacement, WhereHorizontal.parentRightEdgeDisplacement,
    WhereVertical.topEdgeDisplacement, WhereVertical.bottomEdgeDisplacement,
    WhereVertical.parentTopEdgeDisplacement, WhereVertical.parentBottomEdgeDisplacement]

/-- C5. Edge alignment symmetry: from the same initial scene, the displacement
that `rightEdge(A).moveTo().leftEdge(B, M)` applies to `A` is the componentwise
negation of the one that `leftEdge(B).moveTo().rightEdge(A, M)` applies to `B`;
so are the displacements the two calls pass to `moveBy`. -/
theorem edge_alignment_symmetry (σ : Scene) (a b : Nat) (M : ℚ) :
    (∃ σA σB,
      (Composer.rightEdge (some a)).moveTo.leftEdge (some b) M σ = .ok σA ∧
      (Composer.leftEdge (some b)).moveTo.rightEdge (some a) M σ = .ok σB ∧
      ((σA.box a).point - (σ.box a).point).x = -((σB.box b).point - (σ.box b).point).x ∧
      ((σA.box a).point - (σ.box a).point).y = -((σB.box b).point - (σ.box b).point).y) ∧
    (WhereHorizontal.leftEdgeDisplacement (Composer.rightEdge (some a)).moveTo.whichEdge
        (σ.box a) (σ.box b) M).x =
      -(WhereHorizontal.rightEdgeDisplacement (Composer.leftEdge (some b)).moveTo.whichEdge
        (σ.box b) (σ.box a) M).x ∧
    (WhereHorizontal.leftEdgeDisplacement (Composer.rightEdge (some a)).moveTo.whichEdge
        (σ.box a) (σ.box b) M).y =
      -(WhereHorizontal.rightEdgeDisplacement (Composer.leftEdge (some b)).moveTo.whichEdge
        (σ.box b) (σ.box a) M).y := by
  refine ⟨⟨_, _, rfl, rfl, ?_, ?_⟩, ?_, ?_⟩
  all_goals
    simp [Scene.box, Rect.getPoint, WhereHorizontal.leftEdgeDisplacement,
      WhereHorizontal.rightEdgeDisplacement, Composer.leftEdge, Composer.rightEdge,
      MoveHorizontal.moveTo] <;> ring

/-- C6. Centering idempotence: for a valid subject `a` and any reference
rectangle `B`, after one resolution of the builder (by discard, by
`horizontally(m)` or by `vertically(m)`) a second resolution against the same
`B` computes the displacement `(0,0)`, succeeds and leaves every node as it
was; likewise `center(a).in(t);` run twice. -/
theorem centering_idempotence (σ : Scene) (a t : Nat) (B : Rect ℚ) (m : ℚ) :
    (∃ σ1 σ2, (Orientation.mk B (some a)).destroy σ = .ok σ1 ∧
      Orientation.centerDisplacement B (σ1.box a) = ⟨0, 0⟩ ∧
      (Orientation.mk B (some a)).destroy σ1 = .ok σ2 ∧ σ2.nodes = σ1.nodes) ∧
    (∃ o1 σ1 o2 σ2, (Orientation.mk B (some a)).horizontally m σ = .ok (o1, σ1) ∧
      Orientation.horizontallyDisplacement B (σ1.box a) m = ⟨0, 0⟩ ∧
      (Orientation.mk B (some a)).horizontally m σ1 = .ok (o2, σ2) ∧ σ2.nodes = σ1.nodes) ∧
    (∃ o1 σ1 o2 σ2, (Orientation.mk B (some a)).vertically m σ = .ok (o1, σ1) ∧
      Orientation.verticallyDisplacement B (σ1.box a) m = ⟨0, 0⟩ ∧
      (Orientation.mk B (some a)).vertically m σ1 = .ok (o2, σ2) ∧ σ2.nodes = σ1.nodes) ∧
    (∃ σ1 σ2, Statement.centerIn (some a) (some t) σ = .ok σ1 ∧
      Statement.centerIn (some a) (some t) σ1 = .ok σ2 ∧ σ2.nodes = σ1.nodes) := by
  refine ⟨⟨_, _, rfl, ?_, rfl, ?_⟩, ⟨_, _, _, _, rfl, ?_, rfl, ?_⟩,
    ⟨_, _, _, _, rfl, ?_, rfl, ?_⟩, ⟨_, _, rfl, rfl, ?_⟩⟩
  · rw [point_eq_iff]
    constructor <;>
      simp [Scene.box, Rect.getPoint, Orientation.centerDisplacement] <;> ring1
  · funext j
    by_cases h : j = a
    · subst h
      simp [Rect.getPoint, Orientation.centerDisplacement, node_eq_iff, rect_eq_iff,
        point_eq_iff]
      constructor <;> ring1
    · simp [h]
  · rw [point_eq_iff]
    refine ⟨?_, ?_⟩
    · simp [Scene.box, Rect.getPoint, Orientation.horizontallyDisplacement]
      ring1
    · simp [Scene.box, Rect.getPoint, Orientation.horizontallyDisplacement]
  · funext j
    by_cases h : j = a
    · subst h
      simp [Rect.getPoint, Orientation.horizontallyDisplacement, node_eq_iff, rect_eq_iff,
        point_eq_iff]
      ring1
    · simp [h]
  · rw [point_eq_iff]
    refine ⟨?_, ?_⟩
    · simp [Scene.box, Rect.getPoint, Orientation.verticallyDisplacement]
    · simp [Scene.box, Rect.getPoint, Orientation.verticallyDisplacement]
      ring1
  · funext j
    by_cases h : j = a
    · subst h
      simp [Rect.getPoint, Orientation.verticallyDisplacement, node_eq_iff, rect_eq_iff,
        point_eq_iff]
      ring1
    · simp [h]
  · funext j
    by_cases h : j = a
    · subst h
      by_cases h2 : t = j
      · subst h2
        simp [Rect.getPoint, Orientation.centerDisplacement, Composer.center, node_eq_iff,
          rect_eq_iff, point_eq_iff]
      · simp [h2, Rect.getPoint, Orientation.centerDisplacement, Composer.center, node_eq_iff,
          rect_eq_iff, point_eq_iff]
        constructor <;> ring1
    · simp [h]

/-! ## Theorems: single-precision rounding -/

/-- Scaling by a power of two keeps a value that is not positive not positive. -/
theorem scaleb_nonpos (v : ℚ) (k : ℤ) (h : v ≤ 0) : Float32.scaleb v k ≤ 0 := by
  unfold Float32.scaleb
  split
  · exact mul_nonpos_of_nonpos_of_nonneg h (Nat.cast_nonneg _)
  · exact div_nonpos_of_nonpos_of_nonneg h (Nat.cast_nonneg _)

/-- Rounding to the nearest integer keeps a value that is not positive not
positive. -/
theorem roundEven_nonpos (x : ℚ) (h : x ≤ 0) : Float32.roundEven x ≤ 0 := by
  have hf : ⌊x⌋ ≤ 0 := Int.floor_nonpos h
  have hstep : ¬ (x - ⌊x⌋ < 1 / 2) → ⌊x⌋ + 1 ≤ 0 := by
    intro hr
    have h1 : (⌊x⌋ : ℚ) < 0 := by linarith
    have h2 : ⌊x⌋ < 0 := by exact_mod_cast h1
    omega
  unfold Float32.roundEven
  simp only
  split
  · exact hf
  · rename_i hr
    split
    · exact hstep hr
    · split
      · exact hf
      · exact hstep hr

/-- Rounding to binary32 keeps a value that is not positive not positive. -/
theorem round_nonpos (v : ℚ) (h : v ≤ 0) : Float32.round v ≤ 0 := by
  unfold Float32.round
  simp only
  apply scaleb_nonpos
  have := roundEven_nonpos _ (scaleb_nonpos v (-(max (Float32.exponent v - 23) (-149))) h)
  exact_mod_cast this

/-- The `float` difference of `a` and `b` is not positive when `a ≤ b`. -/
theorem sub32_nonpos (a b : ℚ) (h : a ≤ b) : Float32.sub a b ≤ 0 :=
  round_nonpos _ (sub_nonpos.mpr h)

/-- Scaling by a power of two keeps a value that is not negative not negative. -/
theorem scaleb_nonneg (v : ℚ) (k : ℤ) (h : 0 ≤ v) : 0 ≤ Float32.scaleb v k := by
  unfold Float32.scaleb
  split
  · exact mul_nonneg h (Nat.cast_nonneg _)
  · exact div_nonneg h (Nat.cast_nonneg _)

/-- Rounding to the nearest integer keeps a value that is not negative not
negative. -/
theorem roundEven_nonneg (x : ℚ) (h : 0 ≤ x) : 0 ≤ Float32.roundEven x := by
  have hf : 0 ≤ ⌊x⌋ := Int.floor_nonneg.mpr h
  unfold Float32.roundEven
  simp only
  split
  · exact hf
  · split
    · omega
    · split
      · exact hf
      · omega

/-- Rounding to binary32 keeps a value that is not negative not negative. -/
theorem round_nonneg (v : ℚ) (h : 0 ≤ v) : 0 ≤ Float32.round v := by
  unfold Float32.round
  simp only
  apply scaleb_nonneg
  have := roundEven_nonneg _ (scaleb_nonneg v (-(max (Float32.exponent v - 23) (-149))) h)
  exact_mod_cast this

/-- The `float` difference of `a` and `b` is not negative when `b ≤ a`. -/
theorem sub32_nonneg (a b : ℚ) (h : b ≤ a) : 0 ≤ Float32.sub a b :=
  round_nonneg _ (sub_nonneg.mpr h)

/-! ## Theorems: the reference rectangle of `between` -/

/-- A value in the range of a fixed-width integer type is unchanged by
`static_cast` to that type. -/
theorem staticCast_of_inRange (T : NumType) (v : ℤ) (hT : T.IsFixedWidthInt)
    (hv : T.InRange v) : T.staticCast v = v := by
  cases T with
  | bool => exact hT.elim
  | int s b =>
    simp only [NumType.IsFixedWidthInt] at hT
    rcases hT with rfl | rfl | rfl | rfl <;> cases s <;>
      simp [NumType.InRange, NumType.min, NumType.max, NumType.staticCast] at hv ⊢ <;>
      omega

set_option maxHeartbeats 1000000 in
/-- The two checks of the constructor for an unsigned source (Point.h:72,80)
pass on a coordinate exactly when the target can represent it. -/
theorem fromUnsigned_check_iff (bF bT : Nat) (v : ℤ)
    (hF : (NumType.int false bF).IsFixedWidthInt) (hT : (NumType.int true bT).IsFixedWidthInt)
    (hv : (NumType.int false bF).InRange v) :
    (¬ v > (NumType.int false bF).staticCast (NumType.int true bT).max ∧
      (NumType.bigger (.int true bT) (.int false bF)).staticCast
          ((NumType.int true bT).staticCast v) =
        (NumType.bigger (.int true bT) (.int false bF)).staticCast v) ↔
      (NumType.int true bT).InRange v := by
  simp only [NumType.IsFixedWidthInt] at hF hT
  rcases hF with rfl | rfl | rfl | rfl <;> rcases hT with rfl | rfl | rfl | rfl <;>
    simp [NumType.InRange, NumType.min, NumType.max, NumType.bigger, NumType.sizeof,
      NumType.staticCast] at hv ⊢ <;>
    omega

set_option maxHeartbeats 1000000 in
/-- The two checks of the constructor for a signed source (Point.h:101,109)
pass on a coordinate exactly when the target can represent it. -/
theorem fromSigned_check_iff (bF bT : Nat) (v : ℤ)
    (hF : (NumType.int true bF).IsFixedWidthInt) (hT : (NumType.int false bT).IsFixedWidthInt)
    (hv : (NumType.int true bF).InRange v) :
    (¬ v < 0 ∧
      (NumType.bigger (.int false bT) (.int true bF)).staticCast
          ((NumType.int false bT).staticCast v) =
        (NumType.bigger (.int false bT) (.int true bF)).staticCast v) ↔
      (NumType.int false bT).InRange v := by
  simp only [NumType.IsFixedWidthInt] at hF hT
  rcases hF with rfl | rfl | rfl | rfl <;> rcases hT with rfl | rfl | rfl | rfl <;>
    simp [NumType.InRange, NumType.min, NumType.max, NumType.bigger, NumType.sizeof,
      NumType.staticCast] at hv ⊢ <;>
    omega

set_option maxHeartbeats 2000000 in
/-- The check of the constructor for a source of the same signedness
(Point.h:129) passes on a coordinate exactly when the target can represent
it. -/
theorem fromSameSign_check_iff (s : Bool) (bF bT : Nat) (v : ℤ)
    (hF : (NumType.int s bF).IsFixedWidthInt) (hT : (NumType.int s bT).IsFixedWidthInt)
    (hv : (NumType.int s bF).InRange v) :
    (NumType.bigger (.int s bT) (.int s bF)).staticCast ((NumType.int s bT).staticCast v) =
        (NumType.bigger (.int s bT) (.int s bF)).staticCast v ↔
      (NumType.int s bT).InRange v := by
  simp only [NumType.IsFixedWidthInt] at hF hT
  rcases hF with rfl | rfl | rfl | rfl <;> rcases hT with rfl | rfl | rfl | rfl <;>
    cases s <;>
    simp [NumType.InRange, NumType.min, NumType.max, NumType.bigger, NumType.sizeof,
      NumType.staticCast] at hv ⊢ <;>
    omega

/-- A chain of four early exits is one test of the four conditions, grouped by
coordinate. -/
theorem ite_chain {α : Type} (a b c d : Prop) [Decidable a] [Decidable b] [Decidable c]
    [Decidable d] (e r : α) :
    (if a then e else if b then e else if c then e else if d then e else r) =
      if (¬a ∧ ¬c) ∧ (¬b ∧ ¬d) then r else e := by
  by_cases ha : a <;> by_cases hb : b <;> by_cases hc : c <;> by_cases hd : d <;>
    simp [ha, hb, hc, hd]

/-- On fixed-width integer types and a well-formed source point, `Point<T>(p)`
yields `p` when the target can represent both coordinates and throws
otherwise. -/
theorem convert_eq (F T : NumType) (p : Point ℤ)
    (hF : F.IsFixedWidthInt) (hT : T.IsFixedWidthInt)
    (hx : F.InRange p.x) (hy : F.InRange p.y) :
    Point.convert F T p =
      if T.InRange p.x ∧ T.InRange p.y then .ok p else .error .cantConvert := by
  obtain ⟨x, y⟩ := p
  by_cases hFT : F = T
  · subst hFT
    simp [Point.convert, hx, hy]
  cases F with
  | bool => exact hF.elim
  | int sF bF =>
    cases T with
    | bool => exact hT.elim
    | int sT bT =>
      have cx := staticCast_of_inRange (.int sT bT) x hT
      have cy := staticCast_of_inRange (.int sT bT) y hT
      cases sF <;> cases sT
      · have kx := fromSameSign_check_iff false bF bT x hF hT hx
        have ky := fromSameSign_check_iff false bF bT y hF hT hy
        simp only [Point.convert, if_neg hFT, NumType.isUnsigned, NumType.isSigned,
          Point.fromSameSign]
        by_cases hTx : (NumType.int false bT).InRange x <;>
          by_cases hTy : (NumType.int false bT).InRange y <;>
          simp [hTx, hTy, kx, ky, cx, cy]
      · have kx := fromUnsigned_check_iff bF bT x hF hT hx
        have ky := fromUnsigned_check_iff bF bT y hF hT hy
        have hd : Point.convert (.int false bF) (.int true bT) ⟨x, y⟩ =
            Point.fromUnsigned (.int true bT) (.int false bF) ⟨x, y⟩ := by
          simp [Point.convert, NumType.isUnsigned]
        rw [hd]
        simp only [Point.fromUnsigned]
        rw [ite_chain]
        simp only [ne_eq, not_not, kx, ky]
        by_cases hTx : (NumType.int true bT).InRange x <;>
          by_cases hTy : (NumType.int true bT).InRange y <;>
          simp [hTx, hTy, cx, cy]
      · have kx := fromSigned_check_iff bF bT x hF hT hx
        have ky := fromSigned_check_iff bF bT y hF hT hy
        have hd : Point.convert (.int true bF) (.int false bT) ⟨x, y⟩ =
            Point.fromSigned (.int false bT) (.int true bF) ⟨x, y⟩ := by
          simp [Point.convert, NumType.isUnsigned, NumType.isSigned]
        rw [hd]
        simp only [Point.fromSigned]
        rw [ite_chain]
        simp only [ne_eq, not_not, kx, ky]
        by_cases hTx : (NumType.int false bT).InRange x <;>
          by_cases hTy : (NumType.int false bT).InRange y <;>
          simp [hTx, hTy, cx, cy]
      · have kx := fromSameSign_check_iff true bF bT x hF hT hx
        have ky := fromSameSign_check_iff true bF bT y hF hT hy
        simp only [Point.convert, if_neg hFT, NumType.isUnsigned, NumType.isSigned,
          Point.fromSameSign]
        by_cases hTx : (NumType.int true bT).InRange x <;>
          by_cases hTy : (NumType.int true bT).InRange y <;>
          simp [hTx, hTy, kx, ky, cx, cy]

/-- C7. Checked conversion raises exactly when a coordinate is unrepresentable:
for fixed-width integer types `F` and `T` (8, 16, 32 or 64 bits, any
signedness) and every `Point<F>` `p`, `Point<T>(p)` throws the conversion error
if and only if `p.x` or `p.y` is outside the value range of `T`. -/
theorem conversion_raises_iff_unrepresentable (F T : NumType) (p : Point ℤ)
    (hF : F.IsFixedWidthInt) (hT : T.IsFixedWidthInt)
    (hx : F.InRange p.x) (hy : F.InRange p.y) :
    Point.convert F T p = .error .cantConvert ↔ ¬T.InRange p.x ∨ ¬T.InRange p.y := by
  rw [convert_eq F T p hF hT hx hy]
  by_cases hTx : T.InRange p.x <;> by_cases hTy : T.InRange p.y <;> simp [hTx, hTy]

/-- C7, worked example: `Point<int32>{-1, 0}` to `Point<uint32>` throws. -/
theorem conversion_raises_iff_unrepresentable_witness :
    (NumType.int true 32).IsFixedWidthInt ∧ (NumType.int false 32).IsFixedWidthInt ∧
    (NumType.int true 32).InRange (-1) ∧ (NumType.int true 32).InRange 0 ∧
    Point.convert (.int true 32) (.int false 32) ⟨-1, 0⟩ = .error .cantConvert := by
  have hF : (NumType.int true 32).IsFixedWidthInt := by simp [NumType.IsFixedWidthInt]
  have hT : (NumType.int false 32).IsFixedWidthInt := by simp [NumType.IsFixedWidthInt]
  have hx : (NumType.int true 32).InRange (-1) := by
    simp [NumType.InRange, NumType.min, NumType.max]
  have hy : (NumType.int true 32).InRange 0 := by
    simp [NumType.InRange, NumType.min, NumType.max]
  refine ⟨hF, hT, hx, hy, ?_⟩
  refine (conversion_raises_iff_unrepresentable (.int true 32) (.int false 32) ⟨-1, 0⟩
    hF hT hx hy).mpr ?_
  left
  simp [NumType.InRange, NumType.min]

/-- C8. Successful conversion preserves the value: for fixed-width integer
types `F` and `T` and every `Point<F>` `p` whose coordinates `T` can represent,
`Point<T>(p)` does not throw and its coordinates equal those of `p`. -/
theorem conversion_preserves_value (F T : NumType) (p : Point ℤ)
    (hF : F.IsFixedWidthInt) (hT : T.IsFixedWidthInt)
    (hx : F.InRange p.x) (hy : F.InRange p.y)
    (hTx : T.InRange p.x) (hTy : T.InRange p.y) :
    Point.convert F T p = .ok p := by
  rw [convert_eq F T p hF hT hx hy]
  simp [hTx, hTy]

/-- C8, worked example: `Point<int32>{5, 5}` to `Point<uint32>` yields
`{5, 5}`. -/
theorem conversion_preserves_value_witness :
    (NumType.int true 32).IsFixedWidthInt ∧ (NumType.int false 32).IsFixedWidthInt ∧
    (NumType.int true 32).InRange 5 ∧ (NumType.int false 32).InRange 5 ∧
    Point.convert (.int true 32) (.int false 32) ⟨5, 5⟩ = .ok ⟨5, 5⟩ := by
  have hF : (NumType.int true 32).IsFixedWidthInt := by simp [NumType.IsFixedWidthInt]
  have hT : (NumType.int false 32).IsFixedWidthInt := by simp [NumType.IsFixedWidthInt]
  have h5 : (NumType.int true 32).InRange 5 := by
    simp [NumType.InRange, NumType.min, NumType.max]
  have k5 : (NumType.int false 32).InRange 5 := by
    simp [NumType.InRange, NumType.min, NumType.max]
  exact ⟨hF, hT, h5, k5,
    conversion_preserves_value (.int true 32) (.int false 32) ⟨5, 5⟩ hF hT h5 h5 k5 k5⟩

/-- C9, failing input: `Point<uint8>{2, 0}` converted to `Point<bool>` does not
throw and yields `{true, false}`, that is `{1, 0}`, whose x differs from the
source's. The comparison type `Bigger` is the target `bool` itself (equal
`sizeof`), so both sides of the round-trip check have already been narrowed. -/
theorem conversion_to_bool_silently_lossy :
    (NumType.int false 8).InRange 2 ∧ (NumType.int false 8).InRange 0 ∧
    NumType.bigger .bool (.int false 8) = .bool ∧
    Point.convert (.int false 8) .bool ⟨2, 0⟩ = .ok ⟨1, 0⟩ ∧
    (⟨1, 0⟩ : Point ℤ).x ≠ (⟨2, 0⟩ : Point ℤ).x := by
  refine ⟨?_, ?_, ?_, ?_, ?_⟩
  · simp [NumType.InRange, NumType.min, NumType.max]
  · simp [NumType.InRange, NumType.min, NumType.max]
  · simp [NumType.bigger, NumType.sizeof]
  · simp [Point.convert, Point.fromSameSign, NumType.isUnsigned, NumType.bigger,
      NumType.sizeof, NumType.staticCast]
  · decide

end CrossLayout

namespace CrossLayout

/-! ## Theorems: well-formedness, stacking and invalid subjects -/

/-- C11. Method `between` always yields a well-formed rectangle: for any two
valid nodes it succeeds, and the reference rectangle of the builder has origin
`(min(right_a, right_b), min(top_a, top_b))`, width
`max(max(left_a, left_b) - origin.x, 0)`, height
`max(max(bottom_a, bottom_b) - origin.y, 0)`, both non-negative, whatever the
signs of the sizes of the two boxes. -/
theorem between_well_formed (self : In) (a b : Nat) (σ : Scene) :
    ∃ o σ', self.between (some a) (some b) σ = .ok (o, σ') ∧
      o.whichNode = self.whichNode ∧
      o.whereBox = In.betweenBox (σ.box a) (σ.box b) ∧
      o.whereBox.point = ⟨min (σ.box a).right (σ.box b).right, min (σ.box a).top (σ.box b).top⟩ ∧
      o.whereBox.size.width = max (max (σ.box a).x (σ.box b).x - o.whereBox.point.x) 0 ∧
      o.whereBox.size.height = max (max (σ.box a).y (σ.box b).y - o.whereBox.point.y) 0 ∧
      0 ≤ o.whereBox.size.width ∧ 0 ≤ o.whereBox.size.height ∧
      σ'.nodes = σ.nodes :=
  ⟨_, _, rfl, rfl, rfl, rfl, rfl, rfl, le_max_right _ _, le_max_right _ _, rfl⟩

/-- C12. Directional stacking equals the manual edge alignment: from every
scene, for every subject, node and margin (valid or not), each of `below`,
`above`, `toLeftOf`, `toRightOf` returns exactly what the corresponding
`<e>Edge(s).moveTo().<f>Edge(n, m)` chain returns, failure included. -/
theorem stacking_equals_edge_alignment (s n : NodeWrapper) (m : ℚ) (σ : Scene) :
    (Composer.move s).below n m σ = (Composer.topEdge s).moveTo.bottomEdge n m σ ∧
    (Composer.move s).above n m σ = (Composer.bottomEdge s).moveTo.topEdge n m σ ∧
    (Composer.move s).toLeftOf n m σ = (Composer.rightEdge s).moveTo.leftEdge n m σ ∧
    (Composer.move s).toRightOf n m σ = (Composer.leftEdge s).moveTo.rightEdge n m σ :=
  ⟨rfl, rfl, rfl, rfl⟩

/-- C13. Discarding a centering builder with an invalid subject is a no-op:
the destructor succeeds and returns the scene it was given, call log included
(no capability call, no node changed). The builder that `horizontally` or
`vertically` leaves behind on a valid subject is such a builder, and so is the
one `in` makes for an invalid subject. -/
theorem discard_invalid_is_noop (o : Orientation) (σ : Scene) (B : Rect ℚ) (m : ℚ) (s t : Nat)
    (h : o.whichNode.isValid = false) :
    o.destroy σ = .ok σ ∧
    (∃ o1 σ1, (Orientation.mk B (some s)).horizontally m σ = .ok (o1, σ1) ∧
      o1.whichNode.isValid = false ∧ o1.destroy σ1 = .ok σ1) ∧
    (∃ o1 σ1, (Orientation.mk B (some s)).vertically m σ = .ok (o1, σ1) ∧
      o1.whichNode.isValid = false ∧ o1.destroy σ1 = .ok σ1) ∧
    (∃ o1 σ1, (Composer.center o.whichNode).in_ (some t) σ = .ok (o1, σ1) ∧
      o1.whichNode.isValid = false ∧ o1.destroy σ1 = .ok σ1) := by
  have hd : ∀ (b : Orientation) (τ : Scene), b.whichNode.isValid = false → b.destroy τ = .ok τ := by
    intro b τ hb
    simp [Orientation.destroy, hb]
    rfl
  exact ⟨hd o σ h, ⟨_, _, rfl, rfl, rfl⟩, ⟨_, _, rfl, rfl, rfl⟩, ⟨_, _, rfl, h, hd _ _ h⟩⟩

/-- C13 on the worked example: a builder made for a null subject is discarded
without a call. -/
theorem discard_invalid_is_noop_witness :
    (Orientation.mk ⟨⟨100, 0⟩, ⟨20, 20⟩⟩ none).whichNode.isValid = false ∧
    (Orientation.mk ⟨⟨100, 0⟩, ⟨20, 20⟩⟩ none).destroy exampleScene = .ok exampleScene :=
  ⟨rfl, (discard_invalid_is_noop (Orientation.mk ⟨⟨100, 0⟩, ⟨20, 20⟩⟩ none) exampleScene
    ⟨⟨100, 0⟩, ⟨20, 20⟩⟩ 0 0 1 rfl).1⟩

/-- C14, as stated, fails: on the worked example the builder of
`center(s).in(t)` for a null subject `s` and the valid target `t` is made
without failure, but `horizontally(0)` and `vertically(0)` on it fail the
assertion of `getBoundingBox`; so does a second `horizontally(0)` on the builder
that a first call on a valid subject has consumed. -/
theorem explicit_axis_invalid_counterexample :
    (∃ o σ1, (Composer.center none).in_ (some 1) exampleScene = .ok (o, σ1) ∧
      o.horizontally 0 σ1 = .error ⟨.nullNode, σ1⟩ ∧
      o.vertically 0 σ1 = .error ⟨.nullNode, σ1⟩) ∧
    (∃ o σ1 o1 σ2, (Composer.center (some 0)).in_ (some 1) exampleScene = .ok (o, σ1) ∧
      o.horizontally 0 σ1 = .ok (o1, σ2) ∧
      o1.horizontally 0 σ2 = .error ⟨.nullNode, σ2⟩) :=
  ⟨⟨_, _, rfl, rfl, rfl⟩, ⟨_, _, _, _, rfl, rfl, rfl⟩⟩

/-- C14, amended: on a centering builder whose subject is invalid,
`horizontally(m)` and `vertically(m)` fail the assertion of `getBoundingBox`,
and the scene at the failure is the scene the call was given: no capability
call has been made and no node has changed. This is the outcome for the
builder of `center(s).in(t)` with `s` invalid and `t` valid (whose making
changes no node either), and for a second explicit call on a builder that a
first `horizontally(m)` or `vertically(m)` has consumed. -/
theorem explicit_axis_invalid_fails (o : Orientation) (σ : Scene) (B : Rect ℚ) (m : ℚ)
    (s t : Nat) (h : o.whichNode.isValid = false) :
    o.horizontally m σ = .error ⟨.nullNode, σ⟩ ∧
    o.vertically m σ = .error ⟨.nullNode, σ⟩ ∧
    (∃ o1 σ1, (Composer.center o.whichNode).in_ (some t) σ = .ok (o1, σ1) ∧
      σ1.nodes = σ.nodes ∧
      o1.horizontally m σ1 = .error ⟨.nullNode, σ1⟩ ∧
      o1.vertically m σ1 = .error ⟨.nullNode, σ1⟩) ∧
    (∃ o1 σ1, (Orientation.mk B (some s)).horizontally m σ = .ok (o1, σ1) ∧
      o1.horizontally m σ1 = .error ⟨.nullNode, σ1⟩ ∧
      o1.vertically m σ1 = .error ⟨.nullNode, σ1⟩) ∧
    (∃ o1 σ1, (Orientation.mk B (some s)).vertically m σ = .ok (o1, σ1) ∧
      o1.horizontally m σ1 = .error ⟨.nullNode, σ1⟩ ∧
      o1.vertically m σ1 = .error ⟨.nullNode, σ1⟩) := by
  have hn : o.whichNode = none := by
    cases hw : o.whichNode with
    | none => rfl
    | some i => simp [hw, NodeWrapper.isValid] at h
  have hh : ∀ (b : Orientation) (τ : Scene), b.whichNode = none →
      b.horizontally m τ = .error ⟨.nullNode, τ⟩ ∧
      b.vertically m τ = .error ⟨.nullNode, τ⟩ := by
    intro b τ hb
    constructor
    · simp [Orientation.horizontally, hb, NodeWrapper.getBoundingBox, bind, Except.bind]
    · simp [Orientation.vertically, hb, NodeWrapper.getBoundingBox, bind, Except.bind]
  exact ⟨(hh o σ hn).1, (hh o σ hn).2, ⟨_, _, rfl, rfl, hh _ _ hn⟩, ⟨_, _, rfl, rfl, rfl⟩,
    ⟨_, _, rfl, rfl, rfl⟩⟩

/-- C14, amended, on the worked example: `horizontally(5)` on a builder with a
null subject fails, and the scene at the failure is the worked example as it
was. -/
theorem explicit_axis_invalid_fails_witness :
    (Orientation.mk ⟨⟨100, 0⟩, ⟨20, 20⟩⟩ none).whichNode.isValid = false ∧
    (Orientation.mk ⟨⟨100, 0⟩, ⟨20, 20⟩⟩ none).horizontally 5 exampleScene =
      .error ⟨.nullNode, exampleScene⟩ :=
  ⟨rfl, (explicit_axis_invalid_fails (Orientation.mk ⟨⟨100, 0⟩, ⟨20, 20⟩⟩ none) exampleScene
    ⟨⟨100, 0⟩, ⟨20, 20⟩⟩ 5 0 1 rfl).1⟩

/-! ## Theorems: comparison of points -/

/-- C15. Point ordering is the lexicographic strict total order, consistent
with structural equality: over integer coordinates `==` holds exactly for equal
coordinates, `!=` is its negation, `<` compares x first and then y, is
irreflexive and transitive, and exactly one of `a < b`, `a == b`, `b < a`
holds. -/
theorem point_order_lexicographic (a b c : Point ℤ) :
    (Point.eq a b = true ↔ a.x = b.x ∧ a.y = b.y) ∧
    (Point.eq a b = true ↔ a = b) ∧
    (Point.ne a b = !Point.eq a b) ∧
    (Point.lt a b = true ↔ a.x < b.x ∨ (a.x = b.x ∧ a.y < b.y)) ∧
    Point.lt a a = false ∧
    (Point.lt a b = true → Point.lt b c = true → Point.lt a c = true) ∧
    ((Point.lt a b = true ∧ Point.eq a b = false ∧ Point.lt b a = false) ∨
     (Point.lt a b = false ∧ Point.eq a b = true ∧ Point.lt b a = false) ∨
     (Point.lt a b = false ∧ Point.eq a b = false ∧ Point.lt b a = true)) := by
  obtain ⟨ax, ay⟩ := a
  obtain ⟨bx, b_y⟩ := b
  obtain ⟨cx, cy⟩ := c
  simp only [Point.eq, Point.ne, Point.lt, Point.mk.injEq, Bool.and_eq_true, Bool.or_eq_true,
    decide_eq_true_eq, Bool.or_eq_false_iff, Bool.and_eq_false_iff, decide_eq_false_iff_not]
  refine ⟨?_, ?_, ?_, ?_, ?_, ?_, ?_⟩
  · trivial
  · trivial
  · by_cases h1 : ax = bx <;> by_cases h2 : ay = b_y <;> simp [h1, h2]
  · trivial
  · omega
  · omega
  · omega

/-- C15 on three points: `{1,5} < {2,0}` and `{2,0} < {2,3}` give
`{1,5} < {2,3}`. -/
theorem point_order_lexicographic_witness :
    Point.lt (⟨1, 5⟩ : Point ℤ) ⟨2, 0⟩ = true ∧ Point.lt (⟨2, 0⟩ : Point ℤ) ⟨2, 3⟩ = true ∧
    Point.lt (⟨1, 5⟩ : Point ℤ) ⟨2, 3⟩ = true :=
  ⟨by decide, by decide,
    (point_order_lexicographic ⟨1, 5⟩ ⟨2, 0⟩ ⟨2, 3⟩).2.2.2.2.2.1 (by decide) (by decide)⟩

/-! ## Theorems: one mutation per resolution, parent-relative placement -/

/-- With a parent, `parentRightEdge` reads the subject's box, the parent and the
parent's box, and then moves the subject. -/
theorem parentRightEdge_of_parent (e : Point ℚ) (s p : Nat) (m : ℚ) (σ : Scene)
    (hp : (σ.nodes s).parent = some p) :
    (WhereHorizontal.mk e (some s)).parentRightEdge m σ =
      Composer.moveBy (some s)
        (WhereHorizontal.parentRightEdgeDisplacement e (σ.box s) (σ.box p) m)
        { σ with calls := .getBoundingBox p :: .getParent s :: .getBoundingBox s :: σ.calls } := by
  simp [WhereHorizontal.parentRightEdge, NodeWrapper.getParent, NodeWrapper.getBoundingBox, hp,
    bind, Except.bind, Scene.box]

/-- With a parent, `parentTopEdge` reads the subject's box, the parent and the
parent's box, and then moves the subject. -/
theorem parentTopEdge_of_parent (e : Point ℚ) (s p : Nat) (m : ℚ) (σ : Scene)
    (hp : (σ.nodes s).parent = some p) :
    (WhereVertical.mk e (some s)).parentTopEdge m σ =
      Composer.moveBy (some s)
        (WhereVertical.parentTopEdgeDisplacement e (σ.box s) (σ.box p) m)
        { σ with calls := .getBoundingBox p :: .getParent s :: .getBoundingBox s :: σ.calls } := by
  simp [WhereVertical.parentTopEdge, NodeWrapper.getParent, NodeWrapper.getBoundingBox, hp,
    bind, Except.bind, Scene.box]

/-- With a parent, `inParent` makes a builder whose reference rectangle is the
parent's size at the origin. -/
theorem inParent_of_parent (s p : Nat) (σ : Scene) (hp : (σ.nodes s).parent = some p) :
    (Composer.center (some s)).inParent σ =
      .ok (⟨⟨⟨0, 0⟩, (σ.box p).size⟩, some s⟩,
        { σ with calls := .getBoundingBox p :: .getParent s :: σ.calls }) := by
  simp [In.inParent, Composer.center, NodeWrapper.getParent, NodeWrapper.getBoundingBox, hp,
    bind, Except.bind, Scene.box, pure, Except.pure]

/-- C16. Each resolution mutates one node, once: with valid nodes each of the
eight edge alignments, the four stacking calls and the nine centering
statements succeeds, makes exactly one `setPosition` call, on the subject,
writing the subject's previous position plus the displacement computed from
the boxes as they were, and leaves every other node, the targets among them,
unchanged. Only the five chains that read the parent's box
(`parentRightEdge`, `parentTopEdge` and the three `inParent` statements)
assume that the subject has a parent. -/
theorem resolution_mutates_once (σ : Scene) (s t u p : Nat) (e : Point ℚ) (m : ℚ) :
    σ.ResolvesOnce s (WhereHorizontal.leftEdgeDisplacement e (σ.box s) (σ.box t) m)
      ((WhereHorizontal.mk e (some s)).leftEdge (some t) m σ) ∧
    σ.ResolvesOnce s (WhereHorizontal.rightEdgeDisplacement e (σ.box s) (σ.box t) m)
      ((WhereHorizontal.mk e (some s)).rightEdge (some t) m σ) ∧
    σ.ResolvesOnce s (WhereHorizontal.parentLeftEdgeDisplacement e (σ.box s) m)
      ((WhereHorizontal.mk e (some s)).parentLeftEdge m σ) ∧
    ((σ.nodes s).parent = some p →
      σ.ResolvesOnce s (WhereHorizontal.parentRightEdgeDisplacement e (σ.box s) (σ.box p) m)
        ((WhereHorizontal.mk e (some s)).parentRightEdge m σ)) ∧
    σ.ResolvesOnce s (WhereVertical.topEdgeDisplacement e (σ.box s) (σ.box t) m)
      ((WhereVertical.mk e (some s)).topEdge (some t) m σ) ∧
    σ.ResolvesOnce s (WhereVertical.bottomEdgeDisplacement e (σ.box s) (σ.box t) m)
      ((WhereVertical.mk e (some s)).bottomEdge (some t) m σ) ∧
    ((σ.nodes s).parent = some p →
      σ.ResolvesOnce s (WhereVertical.parentTopEdgeDisplacement e (σ.box s) (σ.box p) m)
        ((WhereVertical.mk e (some s)).parentTopEdge m σ)) ∧
    σ.ResolvesOnce s (WhereVertical.parentBottomEdgeDisplacement e (σ.box s) m)
      ((WhereVertical.mk e (some s)).parentBottomEdge m σ) ∧
    σ.ResolvesOnce s (WhereVertical.bottomEdgeDisplacement ⟨0, 1⟩ (σ.box s) (σ.box t) m)
      ((Composer.move (some s)).below (some t) m σ) ∧
    σ.ResolvesOnce s (WhereVertical.topEdgeDisplacement ⟨0, 0⟩ (σ.box s) (σ.box t) m)
      ((Composer.move (some s)).above (some t) m σ) ∧
    σ.ResolvesOnce s (WhereHorizontal.leftEdgeDisplacement ⟨1, 0⟩ (σ.box s) (σ.box t) m)
      ((Composer.move (some s)).toLeftOf (some t) m σ) ∧
    σ.ResolvesOnce s (WhereHorizontal.rightEdgeDisplacement ⟨0, 0⟩ (σ.box s) (σ.box t) m)
      ((Composer.move (some s)).toRightOf (some t) m σ) ∧
    σ.ResolvesOnce s (Orientation.centerDisplacement (σ.box t) (σ.box s))
      (Statement.centerIn (some s) (some t) σ) ∧
    σ.ResolvesOnce s (Orientation.horizontallyDisplacement (σ.box t) (σ.box s) m)
      (Statement.centerInHorizontally (some s) (some t) m σ) ∧
    σ.ResolvesOnce s (Orientation.verticallyDisplacement (σ.box t) (σ.box s) m)
      (Statement.centerInVertically (some s) (some t) m σ) ∧
    ((σ.nodes s).parent = some p →
      σ.ResolvesOnce s (Orientation.centerDisplacement ⟨⟨0, 0⟩, (σ.box p).size⟩ (σ.box s))
        (Statement.centerInParent (some s) σ)) ∧
    ((σ.nodes s).parent = some p →
      σ.ResolvesOnce s (Orientation.horizontallyDisplacement ⟨⟨0, 0⟩, (σ.box p).size⟩ (σ.box s) m)
        (Statement.centerInParentHorizontally (some s) m σ)) ∧
    ((σ.nodes s).parent = some p →
      σ.ResolvesOnce s (Orientation.verticallyDisplacement ⟨⟨0, 0⟩, (σ.box p).size⟩ (σ.box s) m)
        (Statement.centerInParentVertically (some s) m σ)) ∧
    σ.ResolvesOnce s
      (Orientation.centerDisplacement (In.betweenBox (σ.box t) (σ.box u)) (σ.box s))
      (Statement.centerBetween (some s) (some t) (some u) σ) ∧
    σ.ResolvesOnce s
      (Orientation.horizontallyDisplacement (In.betweenBox (σ.box t) (σ.box u)) (σ.box s) m)
      (Statement.centerBetweenHorizontally (some s) (some t) (some u) m σ) ∧
    σ.ResolvesOnce s
      (Orientation.verticallyDisplacement (In.betweenBox (σ.box t) (σ.box u)) (σ.box s) m)
      (Statement.centerBetweenVertically (some s) (some t) (some u) m σ) := by
  refine ⟨?_, ?_, ?_, ?_, ?_, ?_, ?_, ?_, ?_, ?_, ?_, ?_, ?_, ?_, ?_, ?_, ?_, ?_, ?_, ?_, ?_⟩
  · exact ⟨_, rfl, rfl, fun j hj => if_neg hj⟩
  · exact ⟨_, rfl, rfl, fun j hj => if_neg hj⟩
  · exact ⟨_, rfl, rfl, fun j hj => if_neg hj⟩
  · intro hp
    rw [parentRightEdge_of_parent e s p m σ hp]
    exact ⟨_, rfl, rfl, fun j hj => if_neg hj⟩
  · exact ⟨_, rfl, rfl, fun j hj => if_neg hj⟩
  · exact ⟨_, rfl, rfl, fun j hj => if_neg hj⟩
  · intro hp
    rw [parentTopEdge_of_parent e s p m σ hp]
    exact ⟨_, rfl, rfl, fun j hj => if_neg hj⟩
  · exact ⟨_, rfl, rfl, fun j hj => if_neg hj⟩
  · exact ⟨_, rfl, rfl, fun j hj => if_neg hj⟩
  · exact ⟨_, rfl, rfl, fun j hj => if_neg hj⟩
  · exact ⟨_, rfl, rfl, fun j hj => if_neg hj⟩
  · exact ⟨_, rfl, rfl, fun j hj => if_neg hj⟩
  · exact ⟨_, rfl, rfl, fun j hj => if_neg hj⟩
  · exact ⟨_, rfl, rfl, fun j hj => if_neg hj⟩
  · exact ⟨_, rfl, rfl, fun j hj => if_neg hj⟩
  · intro hp
    simp only [Statement.centerInParent, inParent_of_parent s p σ hp]
    exact ⟨_, rfl, rfl, fun j hj => if_neg hj⟩
  · intro hp
    simp only [Statement.centerInParentHorizontally, inParent_of_parent s p σ hp]
    exact ⟨_, rfl, rfl, fun j hj => if_neg hj⟩
  · intro hp
    simp only [Statement.centerInParentVertically, inParent_of_parent s p σ hp]
    exact ⟨_, rfl, rfl, fun j hj => if_neg hj⟩
  · exact ⟨_, rfl, rfl, fun j hj => if_neg hj⟩
  · exact ⟨_, rfl, rfl, fun j hj => if_neg hj⟩
  · exact ⟨_, rfl, rfl, fun j hj => if_neg hj⟩

/-- C16 on the two example scenes: on the scene with a parent,
`rightEdge(s).moveTo().parentRightEdge(5)` makes one `setPosition` call, on the
subject, writing its position plus `(185, 0)`; on the worked example, whose
nodes have no parent, `leftEdge(s).moveTo().rightEdge(t, 5)` makes one, writing
the subject's position plus `(125, 0)`. -/
theorem resolution_mutates_once_witness :
    (exampleParentScene.nodes 0).parent = some 1 ∧
    exampleParentScene.ResolvesOnce 0 ⟨185, 0⟩
      ((Composer.rightEdge (some 0)).moveTo.parentRightEdge 5 exampleParentScene) ∧
    (exampleScene.nodes 0).parent = none ∧
    exampleScene.ResolvesOnce 0 ⟨125, 0⟩
      ((Composer.leftEdge (some 0)).moveTo.rightEdge (some 1) 5 exampleScene) := by
  have h := (resolution_mutates_once exampleParentScene 0 1 1 1 ⟨1, 0⟩ 5).2.2.2.1 rfl
  have hd : WhereHorizontal.parentRightEdgeDisplacement ⟨1, 0⟩ (exampleParentScene.box 0)
      (exampleParentScene.box 1) 5 = ⟨185, 0⟩ := by
    rw [point_eq_iff]
    norm_num [WhereHorizontal.parentRightEdgeDisplacement, exampleParentScene, Scene.box,
      Rect.getPoint]
  rw [hd] at h
  have k := (resolution_mutates_once exampleScene 0 1 1 1 ⟨0, 0⟩ 5).2.1
  have kd : WhereHorizontal.rightEdgeDisplacement ⟨0, 0⟩ (exampleScene.box 0)
      (exampleScene.box 1) 5 = ⟨125, 0⟩ := by
    rw [point_eq_iff]
    norm_num [WhereHorizontal.rightEdgeDisplacement, exampleScene, Scene.ofBoxes, Scene.box,
      Rect.getPoint]
  rw [kd] at k
  exact ⟨rfl, h, rfl, k⟩

/-- C17. Method `inParent` centres against the parent's size at the origin:
for a valid subject whose parent has bounding box `P`, `center(s).inParent();`
succeeds and leaves the subject's centre at `(P.width / 2, P.height / 2)`;
`center(s).inParent().horizontally(m);` succeeds, leaves the x of the centre at
`P.width / 2 + m` and keeps the subject's y; and a scene that differs in the
parent's position gives the subject the same box. -/
theorem center_in_parent (σ : Scene) (s p : Nat) (m : ℚ)
    (hp : (σ.nodes s).parent = some p) :
    (∃ σ', Statement.centerInParent (some s) σ = .ok σ' ∧
      (σ'.box s).getPoint (1 / 2) (1 / 2) =
        ⟨(σ.box p).size.width / 2, (σ.box p).size.height / 2⟩) ∧
    (∃ σ', Statement.centerInParentHorizontally (some s) m σ = .ok σ' ∧
      ((σ'.box s).getPoint (1 / 2) (1 / 2)).x = (σ.box p).size.width / 2 + m ∧
      (σ'.box s).point.y = (σ.box s).point.y) ∧
    (∀ τ : Scene, τ.nodes s = σ.nodes s → (τ.box p).size = (σ.box p).size →
      ∃ σ' τ', Statement.centerInParent (some s) σ = .ok σ' ∧
        Statement.centerInParent (some s) τ = .ok τ' ∧ τ'.box s = σ'.box s) := by
  have hi := inParent_of_parent s p σ hp
  refine ⟨?_, ?_, ?_⟩
  · simp only [Statement.centerInParent, hi]
    refine ⟨_, rfl, ?_⟩
    rw [point_eq_iff]
    simp [Scene.box, Rect.getPoint, Orientation.centerDisplacement]
    constructor <;> ring1
  · simp only [Statement.centerInParentHorizontally, hi]
    refine ⟨_, rfl, ?_, ?_⟩
    · simp [Scene.box, Rect.getPoint, Orientation.horizontallyDisplacement]
      ring1
    · simp [Scene.box, Rect.getPoint, Orientation.horizontallyDisplacement]
  · intro τ hs hsize
    have hj := inParent_of_parent s p τ (hs ▸ hp)
    simp only [Statement.centerInParent, hi, hj]
    refine ⟨_, _, rfl, rfl, ?_⟩
    have hsize' : (τ.nodes p).box.size = (σ.nodes p).box.size := hsize
    simp [Scene.box, hs, hsize']

/-- C17 on the scene with a parent: the parent box is `{100,50,200,100}` and the
subject's centre lands on `(100, 50)`, half the parent's size. -/
theorem center_in_parent_witness :
    (exampleParentScene.nodes 0).parent = some 1 ∧
    ∃ σ', Statement.centerInParent (some 0) exampleParentScene = .ok σ' ∧
      (σ'.box 0).getPoint (1 / 2) (1 / 2) = ⟨100, 50⟩ := by
  obtain ⟨σ', h, hc⟩ := (center_in_parent exampleParentScene 0 1 0 rfl).1
  refine ⟨rfl, σ', h, ?_⟩
  rw [hc, point_eq_iff]
  norm_num [exampleParentScene, Scene.box]

/-- C18. Stacking leaves a gap of exactly the margin: with valid subject `s`
and node `n`, each stacking call succeeds; `below` puts the subject's top at
the bottom of `n` minus `m`, `above` its bottom at the top of `n` plus `m`
(x unchanged), `toLeftOf` its right at the left of `n` minus `m`, `toRightOf`
its left at the right of `n` plus `m` (y unchanged), the edge of `n` being the
one the call read; a node `n` other than the subject keeps its box, and for
`m ≥ 0` the interiors of the two boxes then do not overlap. -/
theorem stacking_gap (σ : Scene) (s n : Nat) (m : ℚ) :
    (∃ σ', (Composer.move (some s)).below (some n) m σ = .ok σ' ∧
      (σ'.box s).top = (σ.box n).y - m ∧ (σ'.box s).x = (σ.box s).x ∧
      (n ≠ s → σ'.box n = σ.box n) ∧
      (n ≠ s → 0 ≤ m → ¬(σ'.box s).InteriorsOverlap (σ'.box n))) ∧
    (∃ σ', (Composer.move (some s)).above (some n) m σ = .ok σ' ∧
      (σ'.box s).y = (σ.box n).top + m ∧ (σ'.box s).x = (σ.box s).x ∧
      (n ≠ s → σ'.box n = σ.box n) ∧
      (n ≠ s → 0 ≤ m → ¬(σ'.box s).InteriorsOverlap (σ'.box n))) ∧
    (∃ σ', (Composer.move (some s)).toLeftOf (some n) m σ = .ok σ' ∧
      (σ'.box s).right = (σ.box n).x - m ∧ (σ'.box s).y = (σ.box s).y ∧
      (n ≠ s → σ'.box n = σ.box n) ∧
      (n ≠ s → 0 ≤ m → ¬(σ'.box s).InteriorsOverlap (σ'.box n))) ∧
    (∃ σ', (Composer.move (some s)).toRightOf (some n) m σ = .ok σ' ∧
      (σ'.box s).x = (σ.box n).right + m ∧ (σ'.box s).y = (σ.box s).y ∧
      (n ≠ s → σ'.box n = σ.box n) ∧
      (n ≠ s → 0 ≤ m → ¬(σ'.box s).InteriorsOverlap (σ'.box n))) := by
  have hbelow : ∃ σ', (Composer.move (some s)).below (some n) m σ = .ok σ' ∧
      (σ'.box s).top = (σ.box n).y - m ∧ (σ'.box s).x = (σ.box s).x ∧
      (n ≠ s → σ'.box n = σ.box n) := by
    refine ⟨_, rfl, ?_, ?_, ?_⟩
    · simp [Scene.box, Rect.top, Rect.y, Rect.getPoint, WhereVertical.bottomEdgeDisplacement,
        Composer.topEdge, Composer.move, MoveVertical.moveTo]
      ring1
    · simp [Scene.box, Rect.x, Rect.getPoint, WhereVertical.bottomEdgeDisplacement,
        Composer.topEdge, Composer.move, MoveVertical.moveTo]
    · intro h
      simp [Scene.box, h]
  have habove : ∃ σ', (Composer.move (some s)).above (some n) m σ = .ok σ' ∧
      (σ'.box s).y = (σ.box n).top + m ∧ (σ'.box s).x = (σ.box s).x ∧
      (n ≠ s → σ'.box n = σ.box n) := by
    refine ⟨_, rfl, ?_, ?_, ?_⟩
    · simp [Scene.box, Rect.top, Rect.y, Rect.getPoint, WhereVertical.topEdgeDisplacement,
        Composer.bottomEdge, Composer.move, MoveVertical.moveTo]
    · simp [Scene.box, Rect.x, Rect.getPoint, WhereVertical.topEdgeDisplacement,
        Composer.bottomEdge, Composer.move, MoveVertical.moveTo]
    · intro h
      simp [Scene.box, h]
  have hleft : ∃ σ', (Composer.move (some s)).toLeftOf (some n) m σ = .ok σ' ∧
      (σ'.box s).right = (σ.box n).x - m ∧ (σ'.box s).y = (σ.box s).y ∧
      (n ≠ s → σ'.box n = σ.box n) := by
    refine ⟨_, rfl, ?_, ?_, ?_⟩
    · simp [Scene.box, Rect.right, Rect.x, Rect.getPoint, WhereHorizontal.leftEdgeDisplacement,
        Composer.rightEdge, Composer.move, MoveHorizontal.moveTo]
      ring1
    · simp [Scene.box, Rect.y, Rect.getPoint, WhereHorizontal.leftEdgeDisplacement,
        Composer.rightEdge, Composer.move, MoveHorizontal.moveTo]
    · intro h
      simp [Scene.box, h]
  have hright : ∃ σ', (Composer.move (some s)).toRightOf (some n) m σ = .ok σ' ∧
      (σ'.box s).x = (σ.box n).right + m ∧ (σ'.box s).y = (σ.box s).y ∧
      (n ≠ s → σ'.box n = σ.box n) := by
    refine ⟨_, rfl, ?_, ?_, ?_⟩
    · simp [Scene.box, Rect.right, Rect.x, Rect.getPoint, WhereHorizontal.rightEdgeDisplacement,
        Composer.leftEdge, Composer.move, MoveHorizontal.moveTo]
    · simp [Scene.box, Rect.y, Rect.getPoint, WhereHorizontal.rightEdgeDisplacement,
        Composer.leftEdge, Composer.move, MoveHorizontal.moveTo]
    · intro h
      simp [Scene.box, h]
  refine ⟨?_, ?_, ?_, ?_⟩
  · obtain ⟨σ', h, he, hx, hn⟩ := hbelow
    refine ⟨σ', h, he, hx, hn, ?_⟩
    intro hne hm hov
    have h1 := hov.2
    rw [hn hne, he] at h1
    have h2 : (σ.box n).y ≤ max ((σ'.box s).y) ((σ.box n).y) := le_max_right _ _
    have h3 : min ((σ.box n).y - m) ((σ.box n).top) ≤ (σ.box n).y - m := min_le_left _ _
    linarith
  · obtain ⟨σ', h, he, hx, hn⟩ := habove
    refine ⟨σ', h, he, hx, hn, ?_⟩
    intro hne hm hov
    have h1 := hov.2
    rw [hn hne, he] at h1
    have h2 : (σ.box n).top + m ≤ max ((σ.box n).top + m) ((σ.box n).y) := le_max_left _ _
    have h3 : min ((σ'.box s).top) ((σ.box n).top) ≤ (σ.box n).top := min_le_right _ _
    linarith
  · obtain ⟨σ', h, he, hy, hn⟩ := hleft
    refine ⟨σ', h, he, hy, hn, ?_⟩
    intro hne hm hov
    have h1 := hov.1
    rw [hn hne, he] at h1
    have h2 : (σ.box n).x ≤ max ((σ'.box s).x) ((σ.box n).x) := le_max_right _ _
    have h3 : min ((σ.box n).x - m) ((σ.box n).right) ≤ (σ.box n).x - m := min_le_left _ _
    linarith
  · obtain ⟨σ', h, he, hy, hn⟩ := hright
    refine ⟨σ', h, he, hy, hn, ?_⟩
    intro hne hm hov
    have h1 := hov.1
    rw [hn hne, he] at h1
    have h2 : (σ.box n).right + m ≤ max ((σ.box n).right + m) ((σ.box n).x) := le_max_left _ _
    have h3 : min ((σ'.box s).right) ((σ.box n).right) ≤ (σ.box n).right := min_le_right _ _
    linarith

/-- C18 on the worked example: `move(s).toRightOf(t, 5)` leaves the subject's
left edge at `x = 125`, the target in place, and the two interiors apart. -/
theorem stacking_gap_witness :
    ∃ σ', (Composer.move (some 0)).toRightOf (some 1) 5 exampleScene = .ok σ' ∧
      (σ'.box 0).x = 125 ∧ σ'.box 1 = ⟨⟨100, 0⟩, ⟨20, 20⟩⟩ ∧
      ¬(σ'.box 0).InteriorsOverlap (σ'.box 1) := by
  obtain ⟨σ', h, hx, _, hn, hov⟩ := (stacking_gap exampleScene 0 1 5).2.2.2
  refine ⟨σ', h, ?_, ?_, hov (by decide) (by norm_num)⟩
  · rw [hx]
    norm_num [exampleScene, Scene.ofBoxes, Scene.box, Rect.right]
  · rw [hn (by decide)]
    simp [exampleScene, Scene.ofBoxes, Scene.box]

/-- C19. Parent-relative edge alignment: for a valid subject whose parent has
bounding box `P`, each chain succeeds; `leftEdge(s).moveTo().parentLeftEdge(m)`
leaves the subject's left at `m`, `rightEdge(s).moveTo().parentRightEdge(m)`
its right at `P.width - m`, `bottomEdge(s).moveTo().parentBottomEdge(m)` its
bottom at `m`, `topEdge(s).moveTo().parentTopEdge(m)` its top at
`P.height - m`; the cross-axis coordinate is unchanged, and only the size of
`P` enters the result. -/
theorem parent_edge_alignment (σ : Scene) (s p : Nat) (m : ℚ)
    (hp : (σ.nodes s).parent = some p) :
    (∃ σ', (Composer.leftEdge (some s)).moveTo.parentLeftEdge m σ = .ok σ' ∧
      (σ'.box s).x = m ∧ (σ'.box s).y = (σ.box s).y) ∧
    (∃ σ', (Composer.rightEdge (some s)).moveTo.parentRightEdge m σ = .ok σ' ∧
      (σ'.box s).right = (σ.box p).size.width - m ∧ (σ'.box s).y = (σ.box s).y) ∧
    (∃ σ', (Composer.bottomEdge (some s)).moveTo.parentBottomEdge m σ = .ok σ' ∧
      (σ'.box s).y = m ∧ (σ'.box s).x = (σ.box s).x) ∧
    (∃ σ', (Composer.topEdge (some s)).moveTo.parentTopEdge m σ = .ok σ' ∧
      (σ'.box s).top = (σ.box p).size.height - m ∧ (σ'.box s).x = (σ.box s).x) := by
  refine ⟨⟨_, rfl, ?_, ?_⟩, ?_, ⟨_, rfl, ?_, ?_⟩, ?_⟩
  · simp [Scene.box, Rect.x, Rect.getPoint, WhereHorizontal.parentLeftEdgeDisplacement,
      Composer.leftEdge, MoveHorizontal.moveTo]
  · simp [Scene.box, Rect.y, Rect.getPoint, WhereHorizontal.parentLeftEdgeDisplacement,
      Composer.leftEdge, MoveHorizontal.moveTo]
  · have h := parentRightEdge_of_parent ⟨1, 0⟩ s p m σ hp
    simp only [Composer.rightEdge, MoveHorizontal.moveTo, h]
    refine ⟨_, rfl, ?_, ?_⟩
    · simp [Scene.box, Rect.right, Rect.getPoint, WhereHorizontal.parentRightEdgeDisplacement]
      ring1
    · simp [Scene.box, Rect.y, Rect.getPoint, WhereHorizontal.parentRightEdgeDisplacement]
  · simp [Scene.box, Rect.y, Rect.getPoint, WhereVertical.parentBottomEdgeDisplacement,
      Composer.bottomEdge, MoveVertical.moveTo]
  · simp [Scene.box, Rect.x, Rect.getPoint, WhereVertical.parentBottomEdgeDisplacement,
      Composer.bottomEdge, MoveVertical.moveTo]
  · have h := parentTopEdge_of_parent ⟨0, 1⟩ s p m σ hp
    simp only [Composer.topEdge, MoveVertical.moveTo, h]
    refine ⟨_, rfl, ?_, ?_⟩
    · simp [Scene.box, Rect.top, Rect.getPoint, WhereVertical.parentTopEdgeDisplacement]
      ring1
    · simp [Scene.box, Rect.x, Rect.getPoint, WhereVertical.parentTopEdgeDisplacement]

/-- C19 on the scene with a parent: the parent box is `{100,50,200,100}`;
`rightEdge(s).moveTo().parentRightEdge(5)` leaves the subject's right edge at
`200 - 5 = 195` and its bottom at `0`. -/
theorem parent_edge_alignment_witness :
    (exampleParentScene.nodes 0).parent = some 1 ∧
    ∃ σ', (Composer.rightEdge (some 0)).moveTo.parentRightEdge 5 exampleParentScene = .ok σ' ∧
      (σ'.box 0).right = 195 ∧ (σ'.box 0).y = 0 := by
  obtain ⟨σ', h, hr, hy⟩ := (parent_edge_alignment exampleParentScene 0 1 5 rfl).2.1
  refine ⟨rfl, σ', h, ?_, ?_⟩
  · rw [hr]
    norm_num [exampleParentScene, Scene.box]
  · rw [hy]
    simp [exampleParentScene, Scene.box, Rect.y]

/-- C20, as stated, fails in the arithmetic of the code: the boxes
`a = {0,0,7,1}` and `b = {33554436,0,1,1}` have binary32 coordinates,
non-negative sizes and `right(a) = 7 ≤ left(b)`, yet in single precision the
width of the rectangle of `between(a, b)` is `33554428`, not
`left(b) - right(a) = 33554429`, and
`center(s).between(a, b).horizontally();` on `s = {1,0,4,1}` leaves the x of
the subject's centre at `16777218`, not at
`(right(a) + left(b)) / 2 = 16777221.5`. -/
theorem between_gap_single_precision_counterexample :
    Float32.round 33554436 = 33554436 ∧ Float32.round 7 = 7 ∧ Float32.round 4 = 4 ∧
    Float32.round 1 = 1 ∧
    (⟨⟨0, 0⟩, ⟨7, 1⟩⟩ : Rect ℚ).right32 = 7 ∧
    (⟨⟨0, 0⟩, ⟨7, 1⟩⟩ : Rect ℚ).right32 ≤ (⟨⟨33554436, 0⟩, ⟨1, 1⟩⟩ : Rect ℚ).x ∧
    In.betweenBox32 ⟨⟨0, 0⟩, ⟨7, 1⟩⟩ ⟨⟨33554436, 0⟩, ⟨1, 1⟩⟩ = ⟨⟨7, 1⟩, ⟨33554428, 0⟩⟩ ∧
    (In.betweenBox32 ⟨⟨0, 0⟩, ⟨7, 1⟩⟩ ⟨⟨33554436, 0⟩, ⟨1, 1⟩⟩).size.width ≠
      (⟨⟨33554436, 0⟩, ⟨1, 1⟩⟩ : Rect ℚ).x - (⟨⟨0, 0⟩, ⟨7, 1⟩⟩ : Rect ℚ).right32 ∧
    Statement.centerBetweenHorizontally32 ⟨⟨1, 0⟩, ⟨4, 1⟩⟩ ⟨⟨0, 0⟩, ⟨7, 1⟩⟩
      ⟨⟨33554436, 0⟩, ⟨1, 1⟩⟩ 0 = ⟨⟨16777216, 0⟩, ⟨4, 1⟩⟩ ∧
    ((Statement.centerBetweenHorizontally32 ⟨⟨1, 0⟩, ⟨4, 1⟩⟩ ⟨⟨0, 0⟩, ⟨7, 1⟩⟩
      ⟨⟨33554436, 0⟩, ⟨1, 1⟩⟩ 0).getPoint32 (1 / 2) (1 / 2)).x = 16777218 ∧
    ((Statement.centerBetweenHorizontally32 ⟨⟨1, 0⟩, ⟨4, 1⟩⟩ ⟨⟨0, 0⟩, ⟨7, 1⟩⟩
      ⟨⟨33554436, 0⟩, ⟨1, 1⟩⟩ 0).getPoint32 (1 / 2) (1 / 2)).x ≠
      ((⟨⟨0, 0⟩, ⟨7, 1⟩⟩ : Rect ℚ).right32 + (⟨⟨33554436, 0⟩, ⟨1, 1⟩⟩ : Rect ℚ).x) / 2 := by
  refine ⟨?_, ?_, ?_, ?_, ?_, ?_, ?_, ?_, ?_, ?_, ?_⟩ <;> decide!

/-- C20, amended. Method `between` is symmetric and spans the gap between
separated boxes: the reference rectangle of `between(a, b)` equals that of
`between(b, a)`; for boxes of non-negative width with `right(a) ≤ left(b)` its
origin x is `right(a)` and, in exact arithmetic, its width is
`left(b) - right(a)` and `center(s).between(a, b).horizontally();` succeeds
and leaves the x of the subject's centre at `(right(a) + left(b)) / 2`; when
the x-ranges overlap with positive length its width is 0. In single precision
the rectangle is symmetric as well, its origin x is the computed `right(a)`
and its width the rounded difference `left(b) - right(a)` when the computed
edges are in the order `left(a) ≤ right(a) ≤ left(b) ≤ right(b)`, and its
width is 0 when the x-ranges overlap. -/
theorem between_symmetric_spans_gap (σ : Scene) (s a b : Nat) :
    In.betweenBox (σ.box a) (σ.box b) = In.betweenBox (σ.box b) (σ.box a) ∧
    (0 ≤ (σ.box a).size.width → 0 ≤ (σ.box b).size.width → (σ.box a).right ≤ (σ.box b).x →
      (In.betweenBox (σ.box a) (σ.box b)).x = (σ.box a).right ∧
      (In.betweenBox (σ.box a) (σ.box b)).size.width = (σ.box b).x - (σ.box a).right ∧
      ∃ σ', Statement.centerBetweenHorizontally (some s) (some a) (some b) 0 σ = .ok σ' ∧
        ((σ'.box s).getPoint (1 / 2) (1 / 2)).x = ((σ.box a).right + (σ.box b).x) / 2) ∧
    (max (σ.box a).x (σ.box b).x < min (σ.box a).right (σ.box b).right →
      (In.betweenBox (σ.box a) (σ.box b)).size.width = 0) ∧
    In.betweenBox32 (σ.box a) (σ.box b) = In.betweenBox32 (σ.box b) (σ.box a) ∧
    ((σ.box a).x ≤ (σ.box a).right32 → (σ.box a).right32 ≤ (σ.box b).x →
      (σ.box b).x ≤ (σ.box b).right32 →
      (In.betweenBox32 (σ.box a) (σ.box b)).x = (σ.box a).right32 ∧
      (In.betweenBox32 (σ.box a) (σ.box b)).size.width =
        Float32.sub (σ.box b).x (σ.box a).right32) ∧
    (max (σ.box a).x (σ.box b).x < min (σ.box a).right32 (σ.box b).right32 →
      (In.betweenBox32 (σ.box a) (σ.box b)).size.width = 0) := by
  refine ⟨?_, ?_, ?_, ?_, ?_, ?_⟩
  · simp only [In.betweenBox]
    rw [min_comm (σ.box a).right, min_comm (σ.box a).top, max_comm (σ.box a).x,
      max_comm (σ.box a).y]
  · intro ha hb hab
    have hax : (σ.box a).x ≤ (σ.box a).right := by
      simp only [Rect.x, Rect.right]
      linarith
    have hbx : (σ.box b).x ≤ (σ.box b).right := by
      simp only [Rect.x, Rect.right]
      linarith
    have hmin : min (σ.box a).right (σ.box b).right = (σ.box a).right :=
      min_eq_left (le_trans hab hbx)
    have hmax : max (σ.box a).x (σ.box b).x = (σ.box b).x :=
      max_eq_right (le_trans hax hab)
    have hx : (In.betweenBox (σ.box a) (σ.box b)).x = (σ.box a).right := hmin
    have hw : (In.betweenBox (σ.box a) (σ.box b)).size.width =
        (σ.box b).x - (σ.box a).right := by
      show max (max (σ.box a).x (σ.box b).x - min (σ.box a).right (σ.box b).right) 0 = _
      rw [hmin, hmax]
      exact max_eq_left (sub_nonneg.mpr hab)
    refine ⟨hx, hw, _, rfl, ?_⟩
    have hx' : (In.betweenBox (σ.nodes a).box (σ.nodes b).box).point.x = (σ.box a).right := hx
    have hw' : (In.betweenBox (σ.nodes a).box (σ.nodes b).box).size.width =
        (σ.box b).x - (σ.box a).right := hw
    simp [Scene.box, Rect.getPoint, Orientation.horizontallyDisplacement, Composer.center, hx',
      hw']
    ring1
  · intro h
    show max (max (σ.box a).x (σ.box b).x - min (σ.box a).right (σ.box b).right) 0 = 0
    exact max_eq_right (by linarith)
  · simp only [In.betweenBox32]
    rw [min_comm (σ.box a).right32, min_comm (σ.box a).top32, max_comm (σ.box a).x,
      max_comm (σ.box a).y]
  · intro hax hab hbx
    have hmin : min (σ.box a).right32 (σ.box b).right32 = (σ.box a).right32 :=
      min_eq_left (le_trans hab hbx)
    have hmax : max (σ.box a).x (σ.box b).x = (σ.box b).x :=
      max_eq_right (le_trans hax hab)
    refine ⟨hmin, ?_⟩
    show max (Float32.sub (max (σ.box a).x (σ.box b).x)
      (min (σ.box a).right32 (σ.box b).right32)) 0 = _
    rw [hmin, hmax]
    exact max_eq_left (sub32_nonneg _ _ hab)
  · intro h
    show max (Float32.sub (max (σ.box a).x (σ.box b).x)
      (min (σ.box a).right32 (σ.box b).right32)) 0 = 0
    exact max_eq_right (sub32_nonpos _ _ (le_of_lt h))

/-- C20, amended, on the worked example: between the subject box
`{0,0,10,10}` and the target box `{100,0,20,20}` the gap is `[10, 100]`; in
exact arithmetic a third node centred horizontally in it has its centre at
`x = 55`, and in single precision the width of the rectangle is `90`. -/
theorem between_symmetric_spans_gap_witness :
    0 ≤ (exampleScene.box 0).size.width ∧ 0 ≤ (exampleScene.box 1).size.width ∧
    (exampleScene.box 0).right ≤ (exampleScene.box 1).x ∧
    (∃ σ', Statement.centerBetweenHorizontally (some 2) (some 0) (some 1) 0 exampleScene =
        .ok σ' ∧
      ((σ'.box 2).getPoint (1 / 2) (1 / 2)).x = 55) ∧
    (In.betweenBox32 (exampleScene.box 0) (exampleScene.box 1)).size.width = 90 := by
  have ha : 0 ≤ (exampleScene.box 0).size.width := by
    norm_num [exampleScene, Scene.ofBoxes, Scene.box]
  have hb : 0 ≤ (exampleScene.box 1).size.width := by
    norm_num [exampleScene, Scene.ofBoxes, Scene.box]
  have hab : (exampleScene.box 0).right ≤ (exampleScene.box 1).x := by
    norm_num [exampleScene, Scene.ofBoxes, Scene.box, Rect.right, Rect.x]
  obtain ⟨_, hgap, _, _, hsingle, _⟩ := between_symmetric_spans_gap exampleScene 2 0 1
  obtain ⟨_, _, σ', h, hc⟩ := hgap ha hb hab
  refine ⟨ha, hb, hab, ⟨σ', h, ?_⟩, ?_⟩
  · rw [hc]
    norm_num [exampleScene, Scene.ofBoxes, Scene.box, Rect.right, Rect.x]
  · rw [(hsingle (by decide!) (by decide!) (by decide!)).2]
    decide!

end CrossLayout
